import Mathlib

/-!
# PicoProjects: display driver and Pong game loop

A shallow embedding of `Projects/pico_pong/Pong.cpp` and of the display driver
in `Projects/asteroids_cpbk.c`.

* The hardware calls `gpio_put`, `spi_write_blocking` and `sleep_ms` are
  recorded as a list of `Event`s, in program order.
* `wire` replays such a list and yields, for every byte put on the serial bus,
  the level the control line `PIN_DC` had at that moment.
* C `int` is `Int` with an explicit two's-complement wrap (`wrapInt`) after
  every arithmetic operation; `size_t` (32 bit on the RP2040) is `Nat`
  modulo `2^32`; `uint8_t` values are `Nat`.
-/

namespace PicoProjects

/-! ## Machine integers -/

/-- Two's-complement wrap of a mathematical integer into the 32-bit `int` range. -/
def wrapInt (v : Int) : Int := (v + 2147483648) % 4294967296 - 2147483648

/-- Conversion of an `int` to the 32-bit unsigned `size_t`. -/
def toSizeT (v : Int) : Nat := (v % 4294967296).toNat

/-- Wrap of an unsigned 32-bit result. -/
def wrapSizeT (v : Nat) : Nat := v % 4294967296

/-- Truncation of an `int` expression stored into a `uint8_t` array element. -/
def toByte (v : Int) : Nat := (v % 256).toNat

/-! ## Pins and constants (the `#define`s of both files) -/

def PIN_CS : Nat := 5
def PIN_DC : Nat := 6
def PIN_RST : Nat := 7

def WIDTH : Nat := 480
def HEIGHT : Nat := 320
def PIXEL_DEPTH : Nat := 3

/-! ## Hardware events -/

/-- Which source statement issued a bus write: the single byte written by
`lcd_command`, the parameter block written by `lcd_data`, or a pixel buffer
written directly with `spi_write_blocking` by a drawing routine. -/
inductive Role where
  | opcode
  | param
  | pixel
deriving DecidableEq

/-- One call into the hardware layer. -/
inductive Event where
  | gpio_put (pin : Nat) (value : Nat)
  | spi_write_blocking (role : Role) (data : List Nat)
  | sleep_ms (ms : Nat)
deriving DecidableEq

/-- One byte on the bus together with the control-line level during its transfer. -/
structure Xfer where
  dc : Nat
  role : Role
  byte : Nat
deriving DecidableEq

/-- Replay a list of events from control-line level `dc`: every byte of every
`spi_write_blocking` is paired with the level last put on `PIN_DC`. -/
def wire : Nat → List Event → List Xfer
  | _, [] => []
  | dc, Event.gpio_put pin value :: es => wire (if pin = PIN_DC then value else dc) es
  | dc, Event.spi_write_blocking role data :: es =>
      data.map (fun byte => Xfer.mk dc role byte) ++ wire dc es
  | dc, Event.sleep_ms _ :: es => wire dc es

/-- The (control-line level, byte) pairs delivered to the bus. -/
def bus (dc : Nat) (es : List Event) : List (Nat × Nat) :=
  (wire dc es).map (fun t => (t.dc, t.byte))

/-- The bus writes among a list of events. -/
def busWrites (es : List Event) : List Event :=
  es.filter (fun e => match e with
    | Event.spi_write_blocking _ _ => true
    | _ => false)

/-- The events that drive the control line `PIN_DC`. -/
def dcWrites (es : List Event) : List Event :=
  es.filter (fun e => match e with
    | Event.gpio_put pin _ => decide (pin = PIN_DC)
    | _ => false)

/-- High byte of a 16-bit coordinate, `(v >> 8) & 0xFF`. -/
def hi (v : Nat) : Nat := (v >>> 8) &&& 0xFF

/-- Low byte of a 16-bit coordinate, `v & 0xFF`. -/
def lo (v : Nat) : Nat := v &&& 0xFF

/-- The loop `for (i = 0; i < n; i++) { buf[i*3] = r; buf[i*3+1] = g; buf[i*3+2] = b; }`. -/
def fill_rgb (n : Nat) (buf : List Nat) (r g b : Nat) : List Nat :=
  (List.range n).foldl
    (fun acc i => ((acc.set (i * 3) r).set (i * 3 + 1) g).set (i * 3 + 2) b) buf

/-- The row `[r,g,b,r,g,b,...]` of `w` pixels. -/
def rgbRow (w : Nat) (r g b : Nat) : List Nat :=
  (List.replicate w [r, g, b]).flatten

/-! ## `Pong.cpp`: display driver -/

namespace Pong

/-- `lcd_command`: control line to 0, then the opcode byte. -/
def lcd_command (cmd : Nat) : List Event :=
  [Event.gpio_put PIN_DC 0, Event.spi_write_blocking Role.opcode [cmd]]

/-- `lcd_data`: control line to 1, then the first `len` bytes of `data`. -/
def lcd_data (data : List Nat) (len : Nat) : List Event :=
  [Event.gpio_put PIN_DC 1, Event.spi_write_blocking Role.param (data.take len)]

/-- `lcd_call`: the opcode followed by its parameter block. -/
def lcd_call (cmd : Nat) (data : List Nat) (len : Nat) : List Event :=
  lcd_command cmd ++ lcd_data data len

/-- `lcd_init`: the power-on sequence. -/
def lcd_init : List Event :=
  [Event.gpio_put PIN_CS 0] ++
  lcd_command 0x01 ++
  [Event.sleep_ms 120] ++
  lcd_command 0x11 ++
  lcd_call 0x36 [0x28] 1 ++
  lcd_call 0x3A [0x07] 1 ++
  lcd_command 0x21 ++
  lcd_command 0x29

/-- `lcd_draw`: memory-write opcode, then the control line back to 1. -/
def lcd_draw : List Event :=
  lcd_command 0x2C ++ [Event.gpio_put PIN_DC 1]

/-- `lcd_set_range(int x, int y, size_t w, size_t h)`: `w` and `h` are
decremented as `size_t`, and `x + w`, `y + h` are computed as `size_t`. -/
def lcd_set_range (x y : Int) (w h : Nat) : List Event :=
  let w1 := wrapSizeT (w + 4294967295)
  let h1 := wrapSizeT (h + 4294967295)
  let xw := wrapSizeT (toSizeT x + w1)
  let yh := wrapSizeT (toSizeT y + h1)
  lcd_call 0x2A
    [toByte (Int.land (x >>> 8) 0xFF), toByte (Int.land x 0xFF),
     (xw >>> 8) &&& 0xFF, xw &&& 0xFF] 4 ++
  lcd_call 0x2B
    [toByte (Int.land (y >>> 8) 0xFF), toByte (Int.land y 0xFF),
     (yh >>> 8) &&& 0xFF, yh &&& 0xFF] 4

/-- `lcd_clear(r, g, b)`: window over the whole screen, memory write, the
global row buffer `clear_row` (passed in with its current contents) filled with
the colour, and that row written `HEIGHT` times. -/
def lcd_clear (clear_row : List Nat) (r g b : Nat) : List Event :=
  lcd_set_range 0 0 WIDTH HEIGHT ++
  lcd_draw ++
  List.replicate HEIGHT
    (Event.spi_write_blocking Role.pixel
      ((fill_rgb WIDTH clear_row r g b).take (WIDTH * PIXEL_DEPTH)))

/-- `drawRect(x, y, w, h, r, g, b)`: nothing for a rectangle off the screen;
otherwise window, memory write, and one write of a `w*h*3`-byte buffer filled
with the colour.  The buffer is a zero-initialised `vector<uint8_t>`; running
out of memory is not modelled. -/
def drawRect (x y w h : Int) (r g b : Nat) : List Event :=
  if x < 0 ∨ y < 0 ∨ wrapInt (x + w) > WIDTH ∨ wrapInt (y + h) > HEIGHT then []
  else
    lcd_set_range x y (toSizeT w) (toSizeT h) ++
    lcd_draw ++
    [Event.spi_write_blocking Role.pixel
      (fill_rgb (wrapInt (w * h)).toNat
        (List.replicate (toSizeT (wrapInt (wrapInt (w * h) * PIXEL_DEPTH))) 0) r g b)]

end Pong

/-! ## `asteroids_cpbk.c`: display driver -/

namespace Asteroids

/-- `lcd_command`: control line to 1, then the opcode byte. -/
def lcd_command (cmd : Nat) : List Event :=
  [Event.gpio_put PIN_DC 1, Event.spi_write_blocking Role.opcode [cmd]]

/-- `lcd_data`: control line to 0, then the first `len` bytes of `data`. -/
def lcd_data (data : List Nat) (len : Nat) : List Event :=
  [Event.gpio_put PIN_DC 0, Event.spi_write_blocking Role.param (data.take len)]

/-- `lcd_call`: the opcode followed by its parameter block. -/
def lcd_call (cmd : Nat) (data : List Nat) (len : Nat) : List Event :=
  lcd_command cmd ++ lcd_data data len

/-- `lcd_set_range(int x, int y, int w, int h)`: all arithmetic is on `int`. -/
def lcd_set_range (x y w h : Int) : List Event :=
  let w1 := wrapInt (w - 1)
  let h1 := wrapInt (h - 1)
  lcd_call 0x2a
    [toByte (Int.land (x >>> 8) 0xff), toByte (Int.land x 0xff),
     toByte (Int.land (wrapInt (x + w1) >>> 8) 0xff),
     toByte (Int.land (wrapInt (x + w1)) 0xff)] 4 ++
  lcd_call 0x2b
    [toByte (Int.land (y >>> 8) 0xff), toByte (Int.land y 0xff),
     toByte (Int.land (wrapInt (y + h1) >>> 8) 0xff),
     toByte (Int.land (wrapInt (y + h1)) 0xff)] 4

/-- `lcd_reset`: the reset line low for 120 ms, then high for 120 ms. -/
def lcd_reset : List Event :=
  [Event.gpio_put PIN_RST 0, Event.sleep_ms 120, Event.gpio_put PIN_RST 1, Event.sleep_ms 120]

/-- `lcd_init`: hardware reset, then the power-on sequence. -/
def lcd_init : List Event :=
  lcd_reset ++
  lcd_command 0x11 ++
  [Event.sleep_ms 120] ++
  lcd_call 0x36 [0x28] 1 ++
  lcd_call 0x3A [0x07] 1 ++
  lcd_command 0x21 ++
  [Event.sleep_ms 120] ++
  lcd_command 0x29

/-- `lcd_draw`: memory-write opcode, then the control line put to 1
(the source comments this store as "Data mode"). -/
def lcd_draw : List Event :=
  lcd_command 0x2c ++ [Event.gpio_put PIN_DC 1]

/-- The row buffer of both fill routines: a `uint8_t row[w3]` filled by
`for (i = 0; i < w3; i += 3) { row[i] = r; row[i+1] = g; row[i+2] = b; }`.
The array starts out uninitialised in C; it is taken as zeroed here. -/
def fill_row (w3 : Nat) (r g b : Nat) : List Nat :=
  fill_rgb ((w3 + 2) / 3) (List.replicate w3 0) r g b

/-- `lcd_fill(x, y, w, h)` with the current colour `r, g, b` (globals in the
source): window, memory write, the row built, and then the loop
`for (size_t i = 0; i < y; i++) { gpio_put(PIN_DC, 0); spi_write_blocking(row, w3); }`,
whose bound is `y` converted to `size_t`. -/
def lcd_fill (r g b : Nat) (x y w h : Int) : List Event :=
  let w3 := toSizeT (wrapInt (w * 3))
  lcd_set_range x y w h ++
  lcd_draw ++
  (List.replicate (toSizeT y)
    [Event.gpio_put PIN_DC 0,
     Event.spi_write_blocking Role.pixel ((fill_row w3 r g b).take w3)]).flatten

/-- `lcd_clear(r, g, b)`: window over the whole screen, memory write, the row
built, and the row written `HEIGHT` times. -/
def lcd_clear (r g b : Nat) : List Event :=
  let w3 := WIDTH * 3
  lcd_set_range 0 0 WIDTH HEIGHT ++
  lcd_draw ++
  List.replicate HEIGHT
    (Event.spi_write_blocking Role.pixel ((fill_row w3 r g b).take w3))

end Asteroids

/-! ## `Pong.cpp`: game loop -/

namespace Pong

def PADDLE_WIDTH : Int := 10
def PADDLE_HEIGHT : Int := 60
def BALL_SIZE : Int := 10
def PADDLE_SPEED : Int := 5
def BALL_SPEED_X : Int := 3
def BALL_SPEED_Y : Int := 3

/-- The mutable game variables of `main`. -/
structure Game where
  paddle_y : Int
  paddle2_y : Int
  ball_x : Int
  ball_y : Int
  ball_dx : Int
  ball_dy : Int
deriving DecidableEq

/-- The left paddle's fixed column. -/
def paddle_x : Int := 10

/-- The right paddle's fixed column. -/
def paddle2_x : Int := (WIDTH : Int) - 20

/-- The game variables as initialised before the main loop. -/
def init : Game where
  paddle_y := (HEIGHT : Int) / 2 - PADDLE_HEIGHT / 2
  paddle2_y := (HEIGHT : Int) / 2 - PADDLE_HEIGHT / 2
  ball_x := (WIDTH : Int) / 2 - BALL_SIZE / 2
  ball_y := (HEIGHT : Int) / 2 - BALL_SIZE / 2
  ball_dx := BALL_SPEED_X
  ball_dy := BALL_SPEED_Y

/-- The joystick deflection `y_val` computed from the `uint16_t` sample:
`y_val = (int)y_raw - 2048; y_val = -y_val`. -/
def y_val (raw : Nat) : Int := -(((raw % 65536 : Nat) : Int) - 2048)

/-- The dead zone around the joystick centre. -/
def dead_zone : Int := 400

/-- Move the player paddle based on the joystick. -/
def move_paddle (s : Game) (raw : Nat) : Game :=
  if y_val raw > dead_zone ∧ s.paddle_y < (HEIGHT : Int) - PADDLE_HEIGHT then
    { s with paddle_y := wrapInt (s.paddle_y + PADDLE_SPEED) }
  else if y_val raw < -dead_zone ∧ s.paddle_y > 0 then
    { s with paddle_y := wrapInt (s.paddle_y - PADDLE_SPEED) }
  else s

/-- AI paddle logic. -/
def ai_paddle (s : Game) : Game :=
  if s.ball_y < wrapInt (s.paddle2_y + PADDLE_HEIGHT / 2) ∧ s.paddle2_y > 0 then
    { s with paddle2_y := wrapInt (s.paddle2_y - PADDLE_SPEED) }
  else if s.ball_y > wrapInt (s.paddle2_y + PADDLE_HEIGHT / 2) ∧
      s.paddle2_y < (HEIGHT : Int) - PADDLE_HEIGHT then
    { s with paddle2_y := wrapInt (s.paddle2_y + PADDLE_SPEED) }
  else s

/-- Move the ball: `ball_x += ball_dx; ball_y += ball_dy`. -/
def move_ball (s : Game) : Game :=
  { s with ball_x := wrapInt (s.ball_x + s.ball_dx), ball_y := wrapInt (s.ball_y + s.ball_dy) }

/-- The game variables after the input, AI and ball-move steps of a tick. -/
def advance (s : Game) (raw : Nat) : Game :=
  move_ball (ai_paddle (move_paddle s raw))

/-- First collision check: reflection at the top and bottom edges. -/
def bounce_edges (s : Game) : Game :=
  if s.ball_y ≤ 0 ∨ wrapInt (s.ball_y + BALL_SIZE) ≥ (HEIGHT : Int) then
    { s with ball_dy := wrapInt (-s.ball_dy) }
  else s

/-- Second collision check: the left paddle. -/
def hit_paddle (s : Game) : Game :=
  if s.ball_x ≤ paddle_x + PADDLE_WIDTH ∧
      wrapInt (s.ball_y + BALL_SIZE) ≥ s.paddle_y ∧
      s.ball_y ≤ wrapInt (s.paddle_y + PADDLE_HEIGHT) then
    { s with ball_dx := wrapInt (-s.ball_dx), ball_x := paddle_x + PADDLE_WIDTH }
  else s

/-- Third collision check: the right paddle. -/
def hit_paddle2 (s : Game) : Game :=
  if wrapInt (s.ball_x + BALL_SIZE) ≥ paddle2_x ∧
      wrapInt (s.ball_y + BALL_SIZE) ≥ s.paddle2_y ∧
      s.ball_y ≤ wrapInt (s.paddle2_y + PADDLE_HEIGHT) then
    { s with ball_dx := wrapInt (-s.ball_dx), ball_x := paddle2_x - BALL_SIZE }
  else s

/-- The ball put back at the centre with its initial velocity. -/
def reset_ball (s : Game) : Game :=
  { s with
    ball_x := (WIDTH : Int) / 2 - BALL_SIZE / 2
    ball_y := (HEIGHT : Int) / 2 - BALL_SIZE / 2
    ball_dx := BALL_SPEED_X
    ball_dy := BALL_SPEED_Y }

/-- Check scoring: reset the ball once it is past the left or the right edge. -/
def check_scoring (s : Game) : Game :=
  if s.ball_x < 0 then reset_ball s
  else if wrapInt (s.ball_x + BALL_SIZE) > (WIDTH : Int) then reset_ball s
  else s

/-- The three collision checks in program order. -/
def check_collisions (s : Game) : Game :=
  hit_paddle2 (hit_paddle (bounce_edges s))

/-- One iteration of the main loop on the game variables. -/
def tick (s : Game) (raw : Nat) : Game :=
  check_scoring (check_collisions (advance s raw))

/-- The game variables after one tick per joystick sample, from `s`. -/
def run (s : Game) (samples : List Nat) : Game :=
  samples.foldl tick s

/-- The arguments of one `drawRect` call. -/
structure RectCall where
  x : Int
  y : Int
  w : Int
  h : Int
  r : Nat
  g : Nat
  b : Nat
deriving DecidableEq

/-- What the call puts on the hardware. -/
def RectCall.events (c : RectCall) : List Event :=
  drawRect c.x c.y c.w c.h c.r c.g c.b

/-- The display update at the end of a loop iteration: `old` holds the
positions stored at the top of the iteration, `new` the game variables after
the update. -/
def draw_calls (old new : Game) : List RectCall :=
  [RectCall.mk paddle_x old.paddle_y PADDLE_WIDTH PADDLE_HEIGHT 0 0 0,
   RectCall.mk paddle2_x old.paddle2_y PADDLE_WIDTH PADDLE_HEIGHT 0 0 0,
   RectCall.mk old.ball_x old.ball_y BALL_SIZE BALL_SIZE 0 0 0,
   RectCall.mk paddle_x new.paddle_y PADDLE_WIDTH PADDLE_HEIGHT 255 255 255,
   RectCall.mk paddle2_x new.paddle2_y PADDLE_WIDTH PADDLE_HEIGHT 255 255 255,
   RectCall.mk new.ball_x new.ball_y BALL_SIZE BALL_SIZE 255 255 255]

/-- One iteration of `while (game_running)`: the positions are stored, the game
variables updated, and the six rectangles handed to `drawRect`. -/
def loop_body (s : Game) (raw : Nat) : Game × List RectCall :=
  (tick s raw, draw_calls s (tick s raw))

/-- The hardware events of one iteration, ending with `sleep_ms(30)`. -/
def loop_events (s : Game) (raw : Nat) : List Event :=
  ((loop_body s raw).2.map RectCall.events).flatten ++ [Event.sleep_ms 30]

/-- The edge test of the collision check, on the variables after the move. -/
def edge_hit (a : Game) : Prop :=
  a.ball_y ≤ 0 ∨ wrapInt (a.ball_y + BALL_SIZE) ≥ (HEIGHT : Int)

instance (a : Game) : Decidable (edge_hit a) := by
  unfold edge_hit
  infer_instance

end Pong

/-! ## Range predicates used by the statements -/

/-- The value lies in the 32-bit `int` range, so computing it does not overflow. -/
def inInt (v : Int) : Prop := -2147483648 ≤ v ∧ v ≤ 2147483647

instance (v : Int) : Decidable (inInt v) := by
  unfold inInt
  infer_instance

/-- Command bytes go out at control-line level 0 and parameter and pixel
bytes at level 1, the levels of `Pong.lcd_command` and `Pong.lcd_data`. -/
def Tagged (t : Xfer) : Prop :=
  (t.role = Role.opcode → t.dc = 0) ∧
  (t.role = Role.param ∨ t.role = Role.pixel → t.dc = 1)

/-- Every game variable lies within `±10^9`, a range in which no `int`
operation of a tick overflows (signed overflow is undefined in C). -/
def Game.bounded (s : Pong.Game) : Prop :=
  (-1000000000 ≤ s.paddle_y ∧ s.paddle_y ≤ 1000000000) ∧
  (-1000000000 ≤ s.paddle2_y ∧ s.paddle2_y ≤ 1000000000) ∧
  (-1000000000 ≤ s.ball_x ∧ s.ball_x ≤ 1000000000) ∧
  (-1000000000 ≤ s.ball_y ∧ s.ball_y ≤ 1000000000) ∧
  (-1000000000 ≤ s.ball_dx ∧ s.ball_dx ≤ 1000000000) ∧
  (-1000000000 ≤ s.ball_dy ∧ s.ball_dy ≤ 1000000000)

instance (s : Pong.Game) : Decidable (Game.bounded s) := by
  unfold Game.bounded
  infer_instance

/-- A paddle position on the 5-pixel grid between 0 and `HEIGHT - PADDLE_HEIGHT`. -/
def paddleOk (y : Int) : Prop := 0 ≤ y ∧ y ≤ 260 ∧ y % 5 = 0

/-- Both velocity components have magnitude 3. -/
def speedOk (s : Pong.Game) : Prop :=
  (s.ball_dx = 3 ∨ s.ball_dx = -3) ∧ (s.ball_dy = 3 ∨ s.ball_dy = -3)

/-- A run checked through intermediate states: `cs` lists the state after
every `k` samples (and after the last one). -/
def runVia (k : Nat) : Pong.Game → List Nat → List Pong.Game → Bool
  | _, samples, [] => samples.isEmpty
  | s, samples, c :: cs =>
      decide (Pong.run s (samples.take k) = c) && runVia k c (samples.drop k) cs

/-- The rectangle lies on the screen, the condition under which `drawRect` draws. -/
def RectCall.onScreen (c : Pong.RectCall) : Prop :=
  0 ≤ c.x ∧ 0 ≤ c.y ∧ c.x + c.w ≤ 480 ∧ c.y + c.h ≤ 320

instance (c : Pong.RectCall) : Decidable (RectCall.onScreen c) := by
  unfold RectCall.onScreen
  infer_instance

/-- The pixel `(px, py)` lies in the rectangle `[x, x+w) × [y, y+h)`. -/
def inRect (x y w h px py : Int) : Prop :=
  x ≤ px ∧ px < x + w ∧ y ≤ py ∧ py < y + h

/-- The ball in play: on the screen horizontally, at most two pixels past the
top or bottom edge, speed 3 on both axes, and moving back in when past an edge. -/
def ballOk (s : Pong.Game) : Prop :=
  (0 ≤ s.ball_x ∧ s.ball_x ≤ 470) ∧
  (-2 ≤ s.ball_y ∧ s.ball_y ≤ 312) ∧
  (s.ball_dx = 3 ∨ s.ball_dx = -3) ∧
  (s.ball_dy = 3 ∨ s.ball_dy = -3) ∧
  (s.ball_y ≤ 0 → s.ball_dy = 3) ∧
  (310 ≤ s.ball_y → s.ball_dy = -3)

/-- The bytes of the pixel writes among a list of events, in order. -/
def pixelBytes : List Event → List Nat
  | [] => []
  | Event.spi_write_blocking Role.pixel data :: es => data ++ pixelBytes es
  | _ :: es => pixelBytes es

/-! ## Byte arithmetic -/

theorem hi_eq_div (v : Nat) : hi v = v / 256 % 256 := by
  unfold hi
  rw [Nat.shiftRight_eq_div_pow]
  exact Nat.and_pow_two_sub_one_eq_mod _ 8

theorem lo_eq_mod (v : Nat) : lo v = v % 256 := by
  unfold lo
  exact Nat.and_pow_two_sub_one_eq_mod _ 8

theorem toByte_land_shift (n : Nat) : toByte (Int.land ((n : Int) >>> 8) 0xFF) = hi n := by
  have h : Int.land ((n : Int) >>> 8) 0xFF = (((n >>> 8) &&& 0xFF : Nat) : Int) := rfl
  rw [h]
  have h2 : (n >>> 8) &&& 0xFF = hi n := rfl
  rw [h2, hi_eq_div]
  unfold toByte
  omega

theorem toByte_land (n : Nat) : toByte (Int.land (n : Int) 0xFF) = lo n := by
  have h : Int.land (n : Int) 0xFF = ((n &&& 0xFF : Nat) : Int) := rfl
  rw [h]
  have h2 : n &&& 0xFF = lo n := rfl
  rw [h2, lo_eq_mod]
  unfold toByte
  omega

theorem hi_lo_recover (v : Nat) (hv : v < 65536) : 256 * hi v + lo v = v := by
  rw [hi_eq_div, lo_eq_mod]
  omega

/-! ## C1: the address window -/

/-- C1. For `x, y ≥ 0` and `w, h ≥ 1` with `x+w-1` and `y+h-1` below 65536,
`lcd_set_range` of both drivers emits opcode 0x2A with the four bytes
`hi x, lo x, hi (x+w-1), lo (x+w-1)`, then opcode 0x2B with
`hi y, lo y, hi (y+h-1), lo (y+h-1)`, and `256*hi + lo` recovers each start
and each inclusive end coordinate. -/
theorem lcd_set_range_window (x y w h : Nat) (hw : 1 ≤ w) (hh : 1 ≤ h)
    (hx : x + w - 1 < 65536) (hy : y + h - 1 < 65536) :
    Pong.lcd_set_range (x : Int) (y : Int) w h =
      [Event.gpio_put PIN_DC 0, Event.spi_write_blocking Role.opcode [0x2A],
       Event.gpio_put PIN_DC 1,
       Event.spi_write_blocking Role.param [hi x, lo x, hi (x + w - 1), lo (x + w - 1)],
       Event.gpio_put PIN_DC 0, Event.spi_write_blocking Role.opcode [0x2B],
       Event.gpio_put PIN_DC 1,
       Event.spi_write_blocking Role.param [hi y, lo y, hi (y + h - 1), lo (y + h - 1)]] ∧
    Asteroids.lcd_set_range (x : Int) (y : Int) (w : Int) (h : Int) =
      [Event.gpio_put PIN_DC 1, Event.spi_write_blocking Role.opcode [0x2A],
       Event.gpio_put PIN_DC 0,
       Event.spi_write_blocking Role.param [hi x, lo x, hi (x + w - 1), lo (x + w - 1)],
       Event.gpio_put PIN_DC 1, Event.spi_write_blocking Role.opcode [0x2B],
       Event.gpio_put PIN_DC 0,
       Event.spi_write_blocking Role.param [hi y, lo y, hi (y + h - 1), lo (y + h - 1)]] ∧
    256 * hi x + lo x = x ∧ 256 * hi (x + w - 1) + lo (x + w - 1) = x + w - 1 ∧
    256 * hi y + lo y = y ∧ 256 * hi (y + h - 1) + lo (y + h - 1) = y + h - 1 := by
  have e1 : wrapSizeT (toSizeT (x : Int) + wrapSizeT (w + 4294967295)) = x + w - 1 := by
    unfold wrapSizeT toSizeT; omega
  have e2 : wrapSizeT (toSizeT (y : Int) + wrapSizeT (h + 4294967295)) = y + h - 1 := by
    unfold wrapSizeT toSizeT; omega
  have e3 : wrapInt ((x : Int) + wrapInt ((w : Int) - 1)) = ((x + w - 1 : Nat) : Int) := by
    unfold wrapInt; omega
  have e4 : wrapInt ((y : Int) + wrapInt ((h : Int) - 1)) = ((y + h - 1 : Nat) : Int) := by
    unfold wrapInt; omega
  refine ⟨?_, ?_, hi_lo_recover x (by omega), hi_lo_recover _ hx,
    hi_lo_recover y (by omega), hi_lo_recover _ hy⟩
  · simp only [Pong.lcd_set_range, e1, e2, toByte_land_shift, toByte_land]
    rfl
  · simp only [Asteroids.lcd_set_range, e3, e4, toByte_land_shift, toByte_land]
    rfl

/-- C1 at the ball's first rectangle, `lcd_set_range(235, 155, 10, 10)`. -/
theorem lcd_set_range_window_witness :
    (1 ≤ 10 ∧ 1 ≤ 10 ∧ 235 + 10 - 1 < 65536 ∧ 155 + 10 - 1 < 65536) ∧
    (Pong.lcd_set_range (235 : Nat) (155 : Nat) 10 10 =
      [Event.gpio_put PIN_DC 0, Event.spi_write_blocking Role.opcode [0x2A],
       Event.gpio_put PIN_DC 1,
       Event.spi_write_blocking Role.param [hi 235, lo 235, hi (235 + 10 - 1), lo (235 + 10 - 1)],
       Event.gpio_put PIN_DC 0, Event.spi_write_blocking Role.opcode [0x2B],
       Event.gpio_put PIN_DC 1,
       Event.spi_write_blocking Role.param
         [hi 155, lo 155, hi (155 + 10 - 1), lo (155 + 10 - 1)]] ∧
    Asteroids.lcd_set_range (235 : Nat) (155 : Nat) (10 : Nat) (10 : Nat) =
      [Event.gpio_put PIN_DC 1, Event.spi_write_blocking Role.opcode [0x2A],
       Event.gpio_put PIN_DC 0,
       Event.spi_write_blocking Role.param [hi 235, lo 235, hi (235 + 10 - 1), lo (235 + 10 - 1)],
       Event.gpio_put PIN_DC 1, Event.spi_write_blocking Role.opcode [0x2B],
       Event.gpio_put PIN_DC 0,
       Event.spi_write_blocking Role.param
         [hi 155, lo 155, hi (155 + 10 - 1), lo (155 + 10 - 1)]] ∧
    256 * hi 235 + lo 235 = 235 ∧ 256 * hi (235 + 10 - 1) + lo (235 + 10 - 1) = 235 + 10 - 1 ∧
    256 * hi 155 + lo 155 = 155 ∧
    256 * hi (155 + 10 - 1) + lo (155 + 10 - 1) = 155 + 10 - 1) :=
  ⟨by decide,
    lcd_set_range_window 235 155 10 10 (by decide) (by decide) (by decide) (by decide)⟩

/-! ## C2: rectangles off the screen -/

/-- C2. When `x < 0`, `y < 0`, `x + w > WIDTH` or `y + h > HEIGHT` (the two sums
computed without `int` overflow), `drawRect` issues no hardware call at all: its
trace is empty, so it holds no bus write and no write to the control line. -/
theorem drawRect_out_of_bounds (x y w h : Int) (r g b : Nat)
    (hxw : inInt (x + w)) (hyh : inInt (y + h))
    (hout : x < 0 ∨ y < 0 ∨ x + w > 480 ∨ y + h > 320) :
    Pong.drawRect x y w h r g b = [] ∧
    busWrites (Pong.drawRect x y w h r g b) = [] ∧
    dcWrites (Pong.drawRect x y w h r g b) = [] := by
  unfold inInt at hxw hyh
  have e1 : wrapInt (x + w) = x + w := by unfold wrapInt; omega
  have e2 : wrapInt (y + h) = y + h := by unfold wrapInt; omega
  have hW : ((WIDTH : Nat) : Int) = 480 := rfl
  have hH : ((HEIGHT : Nat) : Int) = 320 := rfl
  have e : Pong.drawRect x y w h r g b = [] := by
    unfold Pong.drawRect
    rw [e1, e2, hW, hH, if_pos hout]
  rw [e]
  exact ⟨rfl, rfl, rfl⟩

/-- C2 at a ball rectangle two pixels above the top edge, `drawRect(238, -2, 10, 10, ...)`. -/
theorem drawRect_out_of_bounds_witness :
    (inInt (238 + 10) ∧ inInt (-2 + 10) ∧
      ((238 : Int) < 0 ∨ (-2 : Int) < 0 ∨ (238 : Int) + 10 > 480 ∨ (-2 : Int) + 10 > 320)) ∧
    (Pong.drawRect 238 (-2) 10 10 255 255 255 = [] ∧
     busWrites (Pong.drawRect 238 (-2) 10 10 255 255 255) = [] ∧
     dcWrites (Pong.drawRect 238 (-2) 10 10 255 255 255) = []) :=
  ⟨by decide,
    drawRect_out_of_bounds 238 (-2) 10 10 255 255 255 (by decide) (by decide) (by decide)⟩

/-! ## C10: the initialisation sequence -/

/-- C10. Whatever the control line was before, `lcd_init` puts exactly eight
bytes on the bus: 0x01, 0x11, 0x36 with parameter 0x28, 0x3A with parameter
0x07, 0x21, 0x29; the opcodes at level 0 and the two parameters at level 1. -/
theorem lcd_init_wire (dc : Nat) :
    wire dc Pong.lcd_init =
      [Xfer.mk 0 Role.opcode 0x01, Xfer.mk 0 Role.opcode 0x11,
       Xfer.mk 0 Role.opcode 0x36, Xfer.mk 1 Role.param 0x28,
       Xfer.mk 0 Role.opcode 0x3A, Xfer.mk 1 Role.param 0x07,
       Xfer.mk 0 Role.opcode 0x21, Xfer.mk 0 Role.opcode 0x29] := by
  rfl

/-! ## The colour-fill loop -/

theorem rgbRow_succ (n r g b : Nat) : rgbRow (n + 1) r g b = rgbRow n r g b ++ [r, g, b] := by
  unfold rgbRow
  rw [List.replicate_add, List.flatten_append]
  simp

theorem rgbRow_length (n r g b : Nat) : (rgbRow n r g b).length = 3 * n := by
  induction n with
  | zero => simp [rgbRow]
  | succ n ih => rw [rgbRow_succ, List.length_append, ih]; simp; omega

theorem fill_rgb_succ (n : Nat) (buf : List Nat) (r g b : Nat) :
    fill_rgb (n + 1) buf r g b =
      (((fill_rgb n buf r g b).set (n * 3) r).set (n * 3 + 1) g).set (n * 3 + 2) b := by
  unfold fill_rgb
  rw [List.range_succ, List.foldl_append]
  rfl

/-- After `n` iterations the first `3n` bytes are the colour pattern and the rest is untouched. -/
theorem fill_rgb_eq (n : Nat) (buf : List Nat) (r g b : Nat) (h : 3 * n ≤ buf.length) :
    fill_rgb n buf r g b = rgbRow n r g b ++ buf.drop (3 * n) := by
  induction n with
  | zero => simp [fill_rgb, rgbRow]
  | succ n ih =>
    rw [fill_rgb_succ, ih (by omega), rgbRow_succ]
    have hl := rgbRow_length n r g b
    have d0 : buf.drop (3 * n) = buf[3 * n] :: buf.drop (3 * n + 1) :=
      List.drop_eq_getElem_cons (by omega)
    have d1 : buf.drop (3 * n + 1) = buf[3 * n + 1] :: buf.drop (3 * n + 1 + 1) :=
      List.drop_eq_getElem_cons (by omega)
    have d2 : buf.drop (3 * n + 1 + 1) = buf[3 * n + 1 + 1] :: buf.drop (3 * n + 1 + 1 + 1) :=
      List.drop_eq_getElem_cons (by omega)
    rw [d0, d1, d2]
    rw [List.set_append_right _ _ (by omega)]
    have i0 : n * 3 - (rgbRow n r g b).length = 0 := by omega
    rw [i0, List.set_cons_zero]
    rw [List.set_append_right _ _ (by omega)]
    have i1 : n * 3 + 1 - (rgbRow n r g b).length = 1 := by omega
    rw [i1, List.set_cons_succ, List.set_cons_zero]
    rw [List.set_append_right _ _ (by omega)]
    have i2 : n * 3 + 2 - (rgbRow n r g b).length = 2 := by omega
    rw [i2, List.set_cons_succ, List.set_cons_succ, List.set_cons_zero]
    have e : 3 * (n + 1) = 3 * n + 1 + 1 + 1 := by omega
    rw [e]
    simp

/-- Filling a buffer of exactly `3n` bytes leaves the colour pattern of `n` pixels. -/
theorem fill_rgb_exact (n : Nat) (buf : List Nat) (r g b : Nat) (h : buf.length = 3 * n) :
    fill_rgb n buf r g b = rgbRow n r g b := by
  rw [fill_rgb_eq n buf r g b (by omega), List.drop_of_length_le (by omega)]
  simp

theorem rgbRow_getElem? (n r g b i : Nat) (hi : i < n) :
    (rgbRow n r g b)[3 * i]? = some r ∧ (rgbRow n r g b)[3 * i + 1]? = some g ∧
    (rgbRow n r g b)[3 * i + 2]? = some b := by
  induction n generalizing i with
  | zero => omega
  | succ n ih =>
    have hl := rgbRow_length n r g b
    rw [rgbRow_succ]
    by_cases hin : i < n
    · obtain ⟨h0, h1, h2⟩ := ih i hin
      rw [List.getElem?_append_left (by omega), List.getElem?_append_left (by omega),
        List.getElem?_append_left (by omega)]
      exact ⟨h0, h1, h2⟩
    · have hi' : i = n := by omega
      subst hi'
      rw [List.getElem?_append_right (by omega), List.getElem?_append_right (by omega),
        List.getElem?_append_right (by omega)]
      have j0 : 3 * i - (rgbRow i r g b).length = 0 := by omega
      have j1 : 3 * i + 1 - (rgbRow i r g b).length = 1 := by omega
      have j2 : 3 * i + 2 - (rgbRow i r g b).length = 2 := by omega
      rw [j0, j1, j2]
      simp

theorem rgbRow_add (m n r g b : Nat) :
    rgbRow (m + n) r g b = rgbRow m r g b ++ rgbRow n r g b := by
  unfold rgbRow
  rw [List.replicate_add, List.flatten_append]

/-- A row of `w` pixels streamed `h` times is the pattern of `w*h` pixels. -/
theorem flatten_replicate_rgbRow (w h r g b : Nat) :
    (List.replicate h (rgbRow w r g b)).flatten = rgbRow (w * h) r g b := by
  induction h with
  | zero => simp [rgbRow]
  | succ h ih =>
    rw [List.replicate_succ, List.flatten_cons, ih, Nat.mul_succ, Nat.add_comm (w * h) w,
      rgbRow_add]

/-! ## Replaying the driver's events -/

theorem wire_window_append (dc : Nat) (x y : Int) (w h : Nat) (rest : List Event) :
    wire dc (Pong.lcd_set_range x y w h ++ Pong.lcd_draw ++ rest) =
      wire dc (Pong.lcd_set_range x y w h ++ Pong.lcd_draw) ++ wire 1 rest := by
  simp [Pong.lcd_set_range, Pong.lcd_draw, Pong.lcd_call, Pong.lcd_command, Pong.lcd_data, wire]

theorem wire_replicate (d n : Nat) (role : Role) (data : List Nat) :
    wire d (List.replicate n (Event.spi_write_blocking role data)) =
      (List.replicate n data).flatten.map (fun byte => Xfer.mk d role byte) := by
  induction n with
  | zero => simp [wire]
  | succ n ih => simp [List.replicate_succ, wire, ih]

theorem wire_single (d : Nat) (role : Role) (data : List Nat) :
    wire d [Event.spi_write_blocking role data] = data.map (fun byte => Xfer.mk d role byte) := by
  simp [wire]

theorem tagged_window (dc : Nat) (x y : Int) (w h : Nat) :
    ∀ t ∈ wire dc (Pong.lcd_set_range x y w h ++ Pong.lcd_draw), Tagged t := by
  intro t ht
  simp [Pong.lcd_set_range, Pong.lcd_draw, Pong.lcd_call, Pong.lcd_command, Pong.lcd_data,
    wire] at ht
  rcases ht with h | h | h | h | h | h | h | h | h | h | h <;> subst h <;> simp [Tagged]

theorem tagged_pixels (data : List Nat) :
    ∀ t ∈ data.map (fun byte => Xfer.mk 1 Role.pixel byte), Tagged t := by
  intro t ht
  simp at ht
  obtain ⟨a, _, rfl⟩ := ht
  simp [Tagged]

theorem wrapInt_natCast (m : Nat) (hm : m ≤ 2147483647) : wrapInt (m : Int) = (m : Int) := by
  unfold wrapInt
  omega

theorem wrapInt_triple (m : Nat) (hm : m ≤ 153600) :
    wrapInt ((m : Int) * 3) = ((3 * m : Nat) : Int) := by
  unfold wrapInt
  omega

theorem toSizeT_natCast (m : Nat) (hm : m ≤ 4294967295) : toSizeT (m : Int) = m := by
  unfold toSizeT
  omega

theorem drawRect_in_bounds (x y w h r g b : Nat) (hx : x + w ≤ 480) (hy : y + h ≤ 320) :
    Pong.drawRect (x : Int) (y : Int) (w : Int) (h : Int) r g b =
      Pong.lcd_set_range (x : Int) (y : Int) w h ++ Pong.lcd_draw ++
        [Event.spi_write_blocking Role.pixel (rgbRow (w * h) r g b)] := by
  have hm : w * h ≤ 153600 := Nat.mul_le_mul (by omega : w ≤ 480) (by omega : h ≤ 320)
  have e1 : wrapInt ((x : Int) + (w : Int)) = ((x + w : Nat) : Int) := by
    rw [← Nat.cast_add]
    exact wrapInt_natCast _ (by omega)
  have e2 : wrapInt ((y : Int) + (h : Int)) = ((y + h : Nat) : Int) := by
    rw [← Nat.cast_add]
    exact wrapInt_natCast _ (by omega)
  have e3 : wrapInt ((w : Int) * (h : Int)) = ((w * h : Nat) : Int) := by
    rw [← Nat.cast_mul]
    exact wrapInt_natCast _ (by omega)
  have hp : ((PIXEL_DEPTH : Nat) : Int) = 3 := rfl
  have e4 : toSizeT (wrapInt (((w * h : Nat) : Int) * (PIXEL_DEPTH : Int))) = 3 * (w * h) := by
    rw [hp, wrapInt_triple _ hm, toSizeT_natCast _ (by omega)]
  have e5 : toSizeT (w : Int) = w := toSizeT_natCast _ (by omega)
  have e6 : toSizeT (h : Int) = h := toSizeT_natCast _ (by omega)
  have hW : ((WIDTH : Nat) : Int) = 480 := rfl
  have hH : ((HEIGHT : Nat) : Int) = 320 := rfl
  have hg : ¬ ((x : Int) < 0 ∨ (y : Int) < 0 ∨ ((x + w : Nat) : Int) > (WIDTH : Int) ∨
      ((y + h : Nat) : Int) > (HEIGHT : Int)) := by
    rw [hW, hH]
    omega
  unfold Pong.drawRect
  rw [e1, e2, if_neg hg, e3, e4, e5, e6, Int.toNat_ofNat,
    fill_rgb_exact _ _ r g b (List.length_replicate _ _)]

/-! ## C3: the pixel payload of `drawRect` -/

/-- C3. For an in-bounds rectangle (`x, y ≥ 0`, `w, h ≥ 1`, `x+w ≤ 480`,
`y+h ≤ 320`) `drawRect` sets the window, sends memory-write, and then writes one
payload of exactly `3*w*h` bytes with `payload[3i] = r`, `payload[3i+1] = g`,
`payload[3i+2] = b` for every `i < w*h`; the payload is the `3w`-byte row
`[r,g,b,...]` repeated `h` times. -/
theorem drawRect_payload (x y w h r g b : Nat) (hw : 1 ≤ w) (hh : 1 ≤ h)
    (hx : x + w ≤ 480) (hy : y + h ≤ 320) :
    ∃ payload : List Nat,
      Pong.drawRect (x : Int) (y : Int) (w : Int) (h : Int) r g b =
        Pong.lcd_set_range (x : Int) (y : Int) w h ++ Pong.lcd_draw ++
          [Event.spi_write_blocking Role.pixel payload] ∧
      payload.length = 3 * w * h ∧
      (∀ i, i < w * h →
        payload[3 * i]? = some r ∧ payload[3 * i + 1]? = some g ∧
        payload[3 * i + 2]? = some b) ∧
      (rgbRow w r g b).length = 3 * w ∧
      payload = (List.replicate h (rgbRow w r g b)).flatten := by
  have _ := hw
  have _ := hh
  refine ⟨rgbRow (w * h) r g b, drawRect_in_bounds x y w h r g b hx hy, ?_, ?_,
    rgbRow_length w r g b, (flatten_replicate_rgbRow w h r g b).symm⟩
  · rw [rgbRow_length, Nat.mul_assoc]
  · intro i hi
    exact rgbRow_getElem? (w * h) r g b i hi

/-- C3 at the ball's first rectangle, `drawRect(235, 155, 10, 10, 255, 255, 255)`. -/
theorem drawRect_payload_witness :
    (1 ≤ 10 ∧ 1 ≤ 10 ∧ 235 + 10 ≤ 480 ∧ 155 + 10 ≤ 320) ∧
    ∃ payload : List Nat,
      Pong.drawRect (235 : Nat) (155 : Nat) (10 : Nat) (10 : Nat) 255 255 255 =
        Pong.lcd_set_range (235 : Nat) (155 : Nat) 10 10 ++ Pong.lcd_draw ++
          [Event.spi_write_blocking Role.pixel payload] ∧
      payload.length = 3 * 10 * 10 ∧
      (∀ i, i < 10 * 10 →
        payload[3 * i]? = some 255 ∧ payload[3 * i + 1]? = some 255 ∧
        payload[3 * i + 2]? = some 255) ∧
      (rgbRow 10 255 255 255).length = 3 * 10 ∧
      payload = (List.replicate 10 (rgbRow 10 255 255 255)).flatten :=
  ⟨by decide,
    drawRect_payload 235 155 10 10 255 255 255 (by decide) (by decide) (by decide) (by decide)⟩

/-! ## C4: command and data tagging in `Pong.cpp` -/

/-- C4. For every argument and every prior control-line level, each byte that
`lcd_init`, `lcd_set_range`, `lcd_clear` and `drawRect` of `Pong.cpp` put on the
bus is tagged correctly: opcode bytes go out at level 0, parameter and pixel
bytes at level 1. -/
theorem pong_tagging (dc : Nat) :
    (∀ t ∈ wire dc Pong.lcd_init, Tagged t) ∧
    (∀ (x y : Int) (w h : Nat), ∀ t ∈ wire dc (Pong.lcd_set_range x y w h), Tagged t) ∧
    (∀ (clear_row : List Nat) (r g b : Nat),
      ∀ t ∈ wire dc (Pong.lcd_clear clear_row r g b), Tagged t) ∧
    (∀ (x y w h : Int) (r g b : Nat),
      ∀ t ∈ wire dc (Pong.drawRect x y w h r g b), Tagged t) := by
  refine ⟨?_, ?_, ?_, ?_⟩
  · intro t ht
    have e : wire dc Pong.lcd_init =
        [Xfer.mk 0 Role.opcode 0x01, Xfer.mk 0 Role.opcode 0x11,
         Xfer.mk 0 Role.opcode 0x36, Xfer.mk 1 Role.param 0x28,
         Xfer.mk 0 Role.opcode 0x3A, Xfer.mk 1 Role.param 0x07,
         Xfer.mk 0 Role.opcode 0x21, Xfer.mk 0 Role.opcode 0x29] := rfl
    rw [e] at ht
    simp at ht
    rcases ht with h | h | h | h | h | h | h | h <;> subst h <;> simp [Tagged]
  · intro x y w h t ht
    simp [Pong.lcd_set_range, Pong.lcd_call, Pong.lcd_command, Pong.lcd_data, wire] at ht
    rcases ht with h | h | h | h | h | h | h | h | h | h <;> subst h <;> simp [Tagged]
  · intro clear_row r g b t ht
    unfold Pong.lcd_clear at ht
    rw [wire_window_append, wire_replicate, List.mem_append] at ht
    rcases ht with h | h
    · exact tagged_window dc _ _ _ _ t h
    · exact tagged_pixels _ t h
  · intro x y w h r g b t ht
    unfold Pong.drawRect at ht
    split at ht
    · simp [wire] at ht
    · rw [wire_window_append, wire_single, List.mem_append] at ht
      rcases ht with h | h
      · exact tagged_window dc _ _ _ _ t h
      · exact tagged_pixels _ t h

/-! ## C9: `lcd_clear` against `drawRect` over the whole screen -/

/-- C9. With the row buffer at its declared size `WIDTH * PIXEL_DEPTH`,
`lcd_clear(r, g, b)` delivers the same (control-line level, byte) pairs as
`drawRect(0, 0, WIDTH, HEIGHT, r, g, b)`: the window commands for columns
0..479 and rows 0..319, the memory-write command, and `3*480*320` pixel bytes
`r, g, b, r, g, b, ...` at data level. -/
theorem lcd_clear_eq_drawRect (dc : Nat) (clear_row : List Nat) (r g b : Nat)
    (hlen : clear_row.length = WIDTH * PIXEL_DEPTH) :
    bus dc (Pong.lcd_clear clear_row r g b) =
      bus dc (Pong.drawRect 0 0 (WIDTH : Int) (HEIGHT : Int) r g b) ∧
    bus dc (Pong.lcd_clear clear_row r g b) =
      [(0, 0x2A), (1, 0), (1, 0), (1, 1), (1, 0xDF),
       (0, 0x2B), (1, 0), (1, 0), (1, 1), (1, 0x3F), (0, 0x2C)] ++
        (rgbRow (WIDTH * HEIGHT) r g b).map (fun byte => (1, byte)) ∧
    (rgbRow (WIDTH * HEIGHT) r g b).length = 3 * 480 * 320 := by
  have hrow : (fill_rgb WIDTH clear_row r g b).take (WIDTH * PIXEL_DEPTH) =
      rgbRow WIDTH r g b := by
    rw [fill_rgb_exact WIDTH clear_row r g b (by rw [hlen]; rfl)]
    exact List.take_of_length_le (by rw [rgbRow_length]; decide)
  have hclear : wire dc (Pong.lcd_clear clear_row r g b) =
      wire dc (Pong.lcd_set_range 0 0 WIDTH HEIGHT ++ Pong.lcd_draw) ++
        (rgbRow (WIDTH * HEIGHT) r g b).map (fun byte => Xfer.mk 1 Role.pixel byte) := by
    unfold Pong.lcd_clear
    rw [wire_window_append, wire_replicate, hrow, flatten_replicate_rgbRow]
  have hrect : wire dc (Pong.drawRect 0 0 (WIDTH : Int) (HEIGHT : Int) r g b) =
      wire dc (Pong.lcd_set_range 0 0 WIDTH HEIGHT ++ Pong.lcd_draw) ++
        (rgbRow (WIDTH * HEIGHT) r g b).map (fun byte => Xfer.mk 1 Role.pixel byte) := by
    have h := drawRect_in_bounds 0 0 WIDTH HEIGHT r g b (by decide) (by decide)
    simp only [Nat.cast_zero] at h
    rw [h, wire_window_append, wire_single]
  have hpre : (wire dc (Pong.lcd_set_range 0 0 WIDTH HEIGHT ++ Pong.lcd_draw)).map
      (fun t => (t.dc, t.byte)) =
      [(0, 0x2A), (1, 0), (1, 0), (1, 1), (1, 0xDF),
       (0, 0x2B), (1, 0), (1, 0), (1, 1), (1, 0x3F), (0, 0x2C)] := by
    rfl
  refine ⟨?_, ?_, ?_⟩
  · unfold bus
    rw [hclear, hrect]
  · unfold bus
    rw [hclear, List.map_append, hpre, List.map_map]
    rfl
  · rw [rgbRow_length]
    rfl

/-- C9 for a zeroed row buffer and the background colour, as `main` calls it. -/
theorem lcd_clear_eq_drawRect_witness :
    (List.replicate (WIDTH * PIXEL_DEPTH) 0).length = WIDTH * PIXEL_DEPTH ∧
    (bus 1 (Pong.lcd_clear (List.replicate (WIDTH * PIXEL_DEPTH) 0) 0 0 0) =
      bus 1 (Pong.drawRect 0 0 (WIDTH : Int) (HEIGHT : Int) 0 0 0) ∧
    bus 1 (Pong.lcd_clear (List.replicate (WIDTH * PIXEL_DEPTH) 0) 0 0 0) =
      [(0, 0x2A), (1, 0), (1, 0), (1, 1), (1, 0xDF),
       (0, 0x2B), (1, 0), (1, 0), (1, 1), (1, 0x3F), (0, 0x2C)] ++
        (rgbRow (WIDTH * HEIGHT) 0 0 0).map (fun byte => (1, byte)) ∧
    (rgbRow (WIDTH * HEIGHT) 0 0 0).length = 3 * 480 * 320) :=
  ⟨List.length_replicate _ _,
    lcd_clear_eq_drawRect 1 (List.replicate (WIDTH * PIXEL_DEPTH) 0) 0 0 0
      (List.length_replicate _ _)⟩

/-! ## The game loop, step by step -/

namespace Pong

theorem wrapInt_eq (v : Int) (h : inInt v) : wrapInt v = v := by
  unfold inInt at h
  unfold wrapInt
  omega

@[simp]
theorem move_paddle_paddle2_y (s : Game) (raw : Nat) :
    (move_paddle s raw).paddle2_y = s.paddle2_y := by
  unfold move_paddle; split_ifs <;> rfl

@[simp]
theorem move_paddle_ball_x (s : Game) (raw : Nat) :
    (move_paddle s raw).ball_x = s.ball_x := by
  unfold move_paddle; split_ifs <;> rfl

@[simp]
theorem move_paddle_ball_y (s : Game) (raw : Nat) :
    (move_paddle s raw).ball_y = s.ball_y := by
  unfold move_paddle; split_ifs <;> rfl

@[simp]
theorem move_paddle_ball_dx (s : Game) (raw : Nat) :
    (move_paddle s raw).ball_dx = s.ball_dx := by
  unfold move_paddle; split_ifs <;> rfl

@[simp]
theorem move_paddle_ball_dy (s : Game) (raw : Nat) :
    (move_paddle s raw).ball_dy = s.ball_dy := by
  unfold move_paddle; split_ifs <;> rfl

@[simp]
theorem ai_paddle_paddle_y (s : Game) : (ai_paddle s).paddle_y = s.paddle_y := by
  unfold ai_paddle; split_ifs <;> rfl

@[simp]
theorem ai_paddle_ball_x (s : Game) : (ai_paddle s).ball_x = s.ball_x := by
  unfold ai_paddle; split_ifs <;> rfl

@[simp]
theorem ai_paddle_ball_y (s : Game) : (ai_paddle s).ball_y = s.ball_y := by
  unfold ai_paddle; split_ifs <;> rfl

@[simp]
theorem ai_paddle_ball_dx (s : Game) : (ai_paddle s).ball_dx = s.ball_dx := by
  unfold ai_paddle; split_ifs <;> rfl

@[simp]
theorem ai_paddle_ball_dy (s : Game) : (ai_paddle s).ball_dy = s.ball_dy := by
  unfold ai_paddle; split_ifs <;> rfl

@[simp]
theorem advance_paddle_y (s : Game) (raw : Nat) :
    (advance s raw).paddle_y = (move_paddle s raw).paddle_y := by
  simp [advance, move_ball]

@[simp]
theorem advance_paddle2_y (s : Game) (raw : Nat) :
    (advance s raw).paddle2_y = (ai_paddle (move_paddle s raw)).paddle2_y := by
  simp [advance, move_ball]

@[simp]
theorem advance_ball_x (s : Game) (raw : Nat) :
    (advance s raw).ball_x = wrapInt (s.ball_x + s.ball_dx) := by
  simp [advance, move_ball]

@[simp]
theorem advance_ball_y (s : Game) (raw : Nat) :
    (advance s raw).ball_y = wrapInt (s.ball_y + s.ball_dy) := by
  simp [advance, move_ball]

@[simp]
theorem advance_ball_dx (s : Game) (raw : Nat) :
    (advance s raw).ball_dx = s.ball_dx := by
  simp [advance, move_ball]

@[simp]
theorem advance_ball_dy (s : Game) (raw : Nat) :
    (advance s raw).ball_dy = s.ball_dy := by
  simp [advance, move_ball]

@[simp]
theorem check_collisions_paddle_y (s : Game) :
    (check_collisions s).paddle_y = s.paddle_y := by
  unfold check_collisions hit_paddle2 hit_paddle bounce_edges
  split_ifs <;> rfl

@[simp]
theorem check_collisions_paddle2_y (s : Game) :
    (check_collisions s).paddle2_y = s.paddle2_y := by
  unfold check_collisions hit_paddle2 hit_paddle bounce_edges
  split_ifs <;> rfl

@[simp]
theorem check_scoring_paddle_y (s : Game) :
    (check_scoring s).paddle_y = s.paddle_y := by
  unfold check_scoring reset_ball
  split_ifs <;> rfl

@[simp]
theorem check_scoring_paddle2_y (s : Game) :
    (check_scoring s).paddle2_y = s.paddle2_y := by
  unfold check_scoring reset_ball
  split_ifs <;> rfl

theorem tick_paddle_y (s : Game) (raw : Nat) :
    (tick s raw).paddle_y = (move_paddle s raw).paddle_y := by
  simp [tick]

theorem tick_paddle2_y (s : Game) (raw : Nat) :
    (tick s raw).paddle2_y = (ai_paddle (move_paddle s raw)).paddle2_y := by
  simp [tick]

theorem move_paddle_ok (s : Game) (raw : Nat) (h : paddleOk s.paddle_y) :
    paddleOk (move_paddle s raw).paddle_y := by
  unfold paddleOk at h ⊢
  unfold move_paddle
  have hH : ((HEIGHT : Nat) : Int) = 320 := rfl
  split_ifs with h1 h2
  · simp only [hH, PADDLE_HEIGHT, PADDLE_SPEED] at h1 ⊢
    rw [wrapInt_eq _ (by unfold inInt; omega)]
    omega
  · simp only [PADDLE_SPEED] at h2 ⊢
    rw [wrapInt_eq _ (by unfold inInt; omega)]
    omega
  · exact h

theorem ai_paddle_ok (s : Game) (h : paddleOk s.paddle2_y) :
    paddleOk (ai_paddle s).paddle2_y := by
  unfold paddleOk at h ⊢
  unfold ai_paddle
  have hH : ((HEIGHT : Nat) : Int) = 320 := rfl
  split_ifs with h1 h2
  · simp only [PADDLE_SPEED] at h1 ⊢
    rw [wrapInt_eq (s.paddle2_y - 5) (by unfold inInt; omega)]
    omega
  · simp only [hH, PADDLE_HEIGHT, PADDLE_SPEED] at h2 ⊢
    rw [wrapInt_eq (s.paddle2_y + 5) (by unfold inInt; omega)]
    omega
  · exact h

theorem tick_paddles_ok (s : Game) (raw : Nat)
    (h : paddleOk s.paddle_y ∧ paddleOk s.paddle2_y) :
    paddleOk (tick s raw).paddle_y ∧ paddleOk (tick s raw).paddle2_y := by
  rw [tick_paddle_y, tick_paddle2_y]
  refine ⟨move_paddle_ok s raw h.1, ai_paddle_ok _ ?_⟩
  rw [move_paddle_paddle2_y]
  exact h.2

theorem run_paddles_ok (samples : List Nat) (s : Game)
    (h : paddleOk s.paddle_y ∧ paddleOk s.paddle2_y) :
    paddleOk (run s samples).paddle_y ∧ paddleOk (run s samples).paddle2_y := by
  induction samples generalizing s with
  | nil => exact h
  | cons raw rest ih => exact ih (tick s raw) (tick_paddles_ok s raw h)

end Pong

/-! ## C5: the paddles stay on the screen -/

/-- C5. Both paddles start at `HEIGHT/2 - PADDLE_HEIGHT/2 = 130`, and after any
number of ticks, for any joystick samples, both `paddle_y` and `paddle2_y` lie
between 0 and `HEIGHT - PADDLE_HEIGHT = 260`. -/
theorem paddle_clamp (samples : List Nat) :
    Pong.init.paddle_y = 130 ∧ Pong.init.paddle2_y = 130 ∧
    (HEIGHT : Int) - Pong.PADDLE_HEIGHT = 260 ∧
    0 ≤ (Pong.run Pong.init samples).paddle_y ∧
    (Pong.run Pong.init samples).paddle_y ≤ (HEIGHT : Int) - Pong.PADDLE_HEIGHT ∧
    0 ≤ (Pong.run Pong.init samples).paddle2_y ∧
    (Pong.run Pong.init samples).paddle2_y ≤ (HEIGHT : Int) - Pong.PADDLE_HEIGHT := by
  have h0 : paddleOk Pong.init.paddle_y ∧ paddleOk Pong.init.paddle2_y := by
    unfold paddleOk
    decide
  have h := Pong.run_paddles_ok samples Pong.init h0
  have e : (HEIGHT : Int) - Pong.PADDLE_HEIGHT = 260 := by decide
  unfold paddleOk at h
  rw [e]
  exact ⟨by decide, by decide, rfl, h.1.1, h.1.2.1, h.2.1, h.2.2.1⟩

/-! ## The ball within one tick -/

namespace Pong

@[simp]
theorem bounce_edges_ball_x (s : Game) : (bounce_edges s).ball_x = s.ball_x := by
  unfold bounce_edges; split_ifs <;> rfl

@[simp]
theorem bounce_edges_ball_y (s : Game) : (bounce_edges s).ball_y = s.ball_y := by
  unfold bounce_edges; split_ifs <;> rfl

@[simp]
theorem bounce_edges_ball_dx (s : Game) : (bounce_edges s).ball_dx = s.ball_dx := by
  unfold bounce_edges; split_ifs <;> rfl

@[simp]
theorem bounce_edges_paddle_y (s : Game) : (bounce_edges s).paddle_y = s.paddle_y := by
  unfold bounce_edges; split_ifs <;> rfl

@[simp]
theorem bounce_edges_paddle2_y (s : Game) :
    (bounce_edges s).paddle2_y = s.paddle2_y := by
  unfold bounce_edges; split_ifs <;> rfl

theorem bounce_edges_ball_dy (s : Game) :
    (bounce_edges s).ball_dy = s.ball_dy ∨ (bounce_edges s).ball_dy = wrapInt (-s.ball_dy) := by
  unfold bounce_edges
  split_ifs
  · right; rfl
  · left; rfl

theorem hit_paddles_ball_dx (s : Game) :
    (hit_paddle2 (hit_paddle s)).ball_dx = s.ball_dx ∨
    (hit_paddle2 (hit_paddle s)).ball_dx = wrapInt (-s.ball_dx) := by
  unfold hit_paddle2 hit_paddle
  split_ifs with h1 h2 h3
  · exfalso
    simp only [paddle_x, PADDLE_WIDTH, BALL_SIZE, paddle2_x] at h2
    have hW : ((WIDTH : Nat) : Int) = 480 := rfl
    rw [hW] at h2
    have h := h2.1
    revert h
    decide
  · right; rfl
  · right; rfl
  · left; rfl

theorem hit_paddles_ball_x (s : Game) :
    (hit_paddle2 (hit_paddle s)).ball_x = s.ball_x ∨
    (hit_paddle2 (hit_paddle s)).ball_x = 20 ∨
    (hit_paddle2 (hit_paddle s)).ball_x = 450 := by
  unfold hit_paddle2 hit_paddle
  split_ifs
  · right; right; rfl
  · right; left; rfl
  · right; right; rfl
  · left; rfl

@[simp]
theorem hit_paddles_ball_dy (s : Game) :
    (hit_paddle2 (hit_paddle s)).ball_dy = s.ball_dy := by
  unfold hit_paddle2 hit_paddle
  split_ifs <;> rfl

theorem check_collisions_ball_dy (s : Game) :
    (check_collisions s).ball_dy = (bounce_edges s).ball_dy := by
  unfold check_collisions
  rw [hit_paddles_ball_dy]

theorem check_collisions_ball_dx (s : Game) :
    (check_collisions s).ball_dx = s.ball_dx ∨
    (check_collisions s).ball_dx = wrapInt (-s.ball_dx) := by
  unfold check_collisions
  have h := hit_paddles_ball_dx (bounce_edges s)
  rw [bounce_edges_ball_dx] at h
  exact h

theorem check_collisions_ball_x (s : Game) :
    (check_collisions s).ball_x = s.ball_x ∨ (check_collisions s).ball_x = 20 ∨
    (check_collisions s).ball_x = 450 := by
  unfold check_collisions
  have h := hit_paddles_ball_x (bounce_edges s)
  rw [bounce_edges_ball_x] at h
  exact h

theorem check_scoring_ball_dx (s : Game) :
    (check_scoring s).ball_dx = s.ball_dx ∨ (check_scoring s).ball_dx = BALL_SPEED_X := by
  unfold check_scoring reset_ball
  split_ifs
  · right; rfl
  · right; rfl
  · left; rfl

theorem check_scoring_ball_dy (s : Game) :
    (check_scoring s).ball_dy =
      if s.ball_x < 0 ∨ wrapInt (s.ball_x + BALL_SIZE) > (WIDTH : Int) then BALL_SPEED_Y
      else s.ball_dy := by
  unfold check_scoring reset_ball
  by_cases h1 : s.ball_x < 0
  · rw [if_pos h1, if_pos (Or.inl h1)]
  · by_cases h2 : wrapInt (s.ball_x + BALL_SIZE) > (WIDTH : Int)
    · rw [if_neg h1, if_pos h2, if_pos (Or.inr h2)]
    · rw [if_neg h1, if_neg h2, if_neg (by tauto)]

theorem tick_ball_dx (s : Game) (raw : Nat) :
    (tick s raw).ball_dx = s.ball_dx ∨ (tick s raw).ball_dx = wrapInt (-s.ball_dx) ∨
    (tick s raw).ball_dx = BALL_SPEED_X := by
  unfold tick
  rcases check_scoring_ball_dx (check_collisions (advance s raw)) with h | h
  · rcases check_collisions_ball_dx (advance s raw) with h2 | h2
    · left; rw [h, h2, advance_ball_dx]
    · right; left; rw [h, h2, advance_ball_dx]
  · right; right; exact h

theorem tick_ball_dy (s : Game) (raw : Nat) :
    (tick s raw).ball_dy = s.ball_dy ∨ (tick s raw).ball_dy = wrapInt (-s.ball_dy) ∨
    (tick s raw).ball_dy = BALL_SPEED_Y := by
  unfold tick
  rw [check_scoring_ball_dy]
  split_ifs
  · right; right; rfl
  · rw [check_collisions_ball_dy]
    rcases bounce_edges_ball_dy (advance s raw) with h2 | h2
    · left; rw [h2, advance_ball_dy]
    · right; left; rw [h2, advance_ball_dy]

theorem tick_speedOk (s : Game) (raw : Nat) (h : speedOk s) : speedOk (tick s raw) := by
  unfold speedOk at h ⊢
  have n1 : wrapInt (-3) = -3 := by decide
  have n2 : wrapInt (-(-3)) = 3 := by decide
  constructor
  · rcases tick_ball_dx s raw with e | e | e <;> rcases h.1 with d | d <;>
      rw [e] <;> simp only [d, n1, n2, BALL_SPEED_X] <;> decide
  · rcases tick_ball_dy s raw with e | e | e <;> rcases h.2 with d | d <;>
      rw [e] <;> simp only [d, n1, n2, BALL_SPEED_Y] <;> decide

theorem run_speedOk (samples : List Nat) (s : Game) (h : speedOk s) :
    speedOk (run s samples) := by
  induction samples generalizing s with
  | nil => exact h
  | cons raw rest ih => exact ih (tick s raw) (tick_speedOk s raw h)

end Pong

/-! ## C8: constant ball speed -/

/-- C8. In every state reached from the initial one, for any joystick samples,
`|ball_dx| = BALL_SPEED_X = 3` and `|ball_dy| = BALL_SPEED_Y = 3`, and a further
tick leaves each velocity component unchanged, negates it, or resets it to the
canonical value. -/
theorem ball_speed_constant (samples : List Nat) (raw : Nat) :
    |(Pong.run Pong.init samples).ball_dx| = Pong.BALL_SPEED_X ∧
    |(Pong.run Pong.init samples).ball_dy| = Pong.BALL_SPEED_Y ∧
    Pong.BALL_SPEED_X = 3 ∧ Pong.BALL_SPEED_Y = 3 ∧
    ((Pong.tick (Pong.run Pong.init samples) raw).ball_dx = (Pong.run Pong.init samples).ball_dx ∨
     (Pong.tick (Pong.run Pong.init samples) raw).ball_dx = -(Pong.run Pong.init samples).ball_dx ∨
     (Pong.tick (Pong.run Pong.init samples) raw).ball_dx = Pong.BALL_SPEED_X) ∧
    ((Pong.tick (Pong.run Pong.init samples) raw).ball_dy = (Pong.run Pong.init samples).ball_dy ∨
     (Pong.tick (Pong.run Pong.init samples) raw).ball_dy = -(Pong.run Pong.init samples).ball_dy ∨
     (Pong.tick (Pong.run Pong.init samples) raw).ball_dy = Pong.BALL_SPEED_Y) := by
  have h0 : speedOk Pong.init := by
    unfold speedOk
    decide
  have h := Pong.run_speedOk samples Pong.init h0
  unfold speedOk at h
  have n1 : wrapInt (-3) = -3 := by decide
  have n2 : wrapInt (-(-3)) = -(-3) := by decide
  have ex := Pong.tick_ball_dx (Pong.run Pong.init samples) raw
  have ey := Pong.tick_ball_dy (Pong.run Pong.init samples) raw
  have a3 : |(3 : Int)| = 3 := by decide
  have a3n : |(-3 : Int)| = 3 := by decide
  refine ⟨?_, ?_, rfl, rfl, ?_, ?_⟩
  · rcases h.1 with d | d <;> rw [d]
    · exact a3
    · exact a3n
  · rcases h.2 with d | d <;> rw [d]
    · exact a3
    · exact a3n
  · rcases h.1 with d | d <;> rw [d] at ex ⊢
    · rw [n1] at ex; exact ex
    · rw [n2] at ex; exact ex
  · rcases h.2 with d | d <;> rw [d] at ey ⊢
    · rw [n1] at ey; exact ey
    · rw [n2] at ey; exact ey

/-! ## One tick from a bounded state -/

namespace Pong

theorem move_paddle_bounds (s : Game) (raw : Nat)
    (h : -1000000000 ≤ s.paddle_y ∧ s.paddle_y ≤ 1000000000) :
    -1000000005 ≤ (move_paddle s raw).paddle_y ∧ (move_paddle s raw).paddle_y ≤ 1000000005 := by
  unfold move_paddle
  split_ifs
  · simp only [PADDLE_SPEED]
    rw [wrapInt_eq _ (by unfold inInt; omega)]
    omega
  · simp only [PADDLE_SPEED]
    rw [wrapInt_eq _ (by unfold inInt; omega)]
    omega
  · omega

theorem ai_paddle_bounds (s : Game)
    (h : -1000000000 ≤ s.paddle2_y ∧ s.paddle2_y ≤ 1000000000) :
    -1000000005 ≤ (ai_paddle s).paddle2_y ∧ (ai_paddle s).paddle2_y ≤ 1000000005 := by
  unfold ai_paddle
  split_ifs
  · simp only [PADDLE_SPEED]
    rw [wrapInt_eq (s.paddle2_y - 5) (by unfold inInt; omega)]
    omega
  · simp only [PADDLE_SPEED]
    rw [wrapInt_eq (s.paddle2_y + 5) (by unfold inInt; omega)]
    omega
  · omega

/-- From a bounded state the position update does not overflow, and the
variables after it stay far inside the `int` range. -/
theorem advance_bounded (s : Game) (raw : Nat) (hs : Game.bounded s) :
    (advance s raw).ball_x = s.ball_x + s.ball_dx ∧
    (advance s raw).ball_y = s.ball_y + s.ball_dy ∧
    (-2000000000 ≤ (advance s raw).ball_x ∧ (advance s raw).ball_x ≤ 2000000000) ∧
    (-2000000000 ≤ (advance s raw).ball_y ∧ (advance s raw).ball_y ≤ 2000000000) ∧
    (-2000000000 ≤ (advance s raw).paddle_y ∧ (advance s raw).paddle_y ≤ 2000000000) ∧
    (-2000000000 ≤ (advance s raw).paddle2_y ∧ (advance s raw).paddle2_y ≤ 2000000000) := by
  unfold Game.bounded at hs
  obtain ⟨h1, h2, h3, h4, h5, h6⟩ := hs
  have ex : wrapInt (s.ball_x + s.ball_dx) = s.ball_x + s.ball_dx :=
    wrapInt_eq _ (by unfold inInt; omega)
  have ey : wrapInt (s.ball_y + s.ball_dy) = s.ball_y + s.ball_dy :=
    wrapInt_eq _ (by unfold inInt; omega)
  have p1 := move_paddle_bounds s raw h1
  have p2 := ai_paddle_bounds (move_paddle s raw) (by rw [move_paddle_paddle2_y]; exact h2)
  rw [advance_ball_x, advance_ball_y, advance_paddle_y, advance_paddle2_y, ex, ey]
  refine ⟨rfl, rfl, ?_, ?_, ?_, ?_⟩ <;> omega

/-- When neither paddle check fires and the ball is past an edge, the tick
ends with the ball reset. -/
theorem resolve_miss (a : Game)
    (hx : -2000000000 ≤ a.ball_x ∧ a.ball_x ≤ 2000000000)
    (hy : -2000000000 ≤ a.ball_y ∧ a.ball_y ≤ 2000000000)
    (hp : -2000000000 ≤ a.paddle_y ∧ a.paddle_y ≤ 2000000000)
    (hp2 : -2000000000 ≤ a.paddle2_y ∧ a.paddle2_y ≤ 2000000000)
    (h : (a.ball_x < 0 ∧
          ¬ (a.ball_y + BALL_SIZE ≥ a.paddle_y ∧ a.ball_y ≤ a.paddle_y + PADDLE_HEIGHT)) ∨
         (a.ball_x + BALL_SIZE > (WIDTH : Int) ∧
          ¬ (a.ball_y + BALL_SIZE ≥ a.paddle2_y ∧ a.ball_y ≤ a.paddle2_y + PADDLE_HEIGHT))) :
    check_scoring (check_collisions a) = reset_ball (bounce_edges a) := by
  have hW : ((WIDTH : Nat) : Int) = 480 := rfl
  simp only [BALL_SIZE, PADDLE_HEIGHT, hW] at h
  have w1 : wrapInt (a.ball_x + 10) = a.ball_x + 10 := wrapInt_eq _ (by unfold inInt; omega)
  have w2 : wrapInt (a.ball_y + 10) = a.ball_y + 10 := wrapInt_eq _ (by unfold inInt; omega)
  have w3 : wrapInt (a.paddle_y + 60) = a.paddle_y + 60 := wrapInt_eq _ (by unfold inInt; omega)
  have w4 : wrapInt (a.paddle2_y + 60) = a.paddle2_y + 60 :=
    wrapInt_eq _ (by unfold inInt; omega)
  have m1 : hit_paddle (bounce_edges a) = bounce_edges a := by
    unfold hit_paddle
    rw [if_neg]
    simp only [bounce_edges_ball_x, bounce_edges_ball_y, bounce_edges_paddle_y, paddle_x,
      PADDLE_WIDTH, BALL_SIZE, PADDLE_HEIGHT, w2, w3]
    omega
  have m2 : hit_paddle2 (bounce_edges a) = bounce_edges a := by
    unfold hit_paddle2
    rw [if_neg]
    simp only [bounce_edges_ball_x, bounce_edges_ball_y, bounce_edges_paddle2_y, paddle2_x,
      BALL_SIZE, PADDLE_HEIGHT, hW, w1, w2, w4]
    omega
  unfold check_collisions
  rw [m1, m2]
  unfold check_scoring
  by_cases c1 : (bounce_edges a).ball_x < 0
  · rw [if_pos c1]
  · rw [if_neg c1, if_pos]
    simp only [bounce_edges_ball_x, BALL_SIZE, hW, w1] at c1 ⊢
    omega

end Pong

/-! ## Runs checked through intermediate states -/

theorem run_append (s : Pong.Game) (a b : List Nat) :
    Pong.run s (a ++ b) = Pong.run (Pong.run s a) b := by
  unfold Pong.run
  rw [List.foldl_append]

theorem runVia_sound (k : Nat) (cs : List Pong.Game) (s : Pong.Game) (samples : List Nat)
    (h : runVia k s samples cs = true) : Pong.run s samples = cs.getLastD s := by
  induction cs generalizing s samples with
  | nil =>
    unfold runVia at h
    rw [List.isEmpty_iff] at h
    rw [h]
    rfl
  | cons c cs ih =>
    unfold runVia at h
    rw [Bool.and_eq_true, decide_eq_true_eq] at h
    have e := ih c (samples.drop k) h.2
    have hsplit : Pong.run s samples =
        Pong.run (Pong.run s (samples.take k)) (samples.drop k) := by
      rw [← run_append, List.take_append_drop]
    rw [hsplit, h.1, e]
    cases cs with
    | nil => rfl
    | cons d ds => rfl

set_option maxRecDepth 4000 in
set_option maxHeartbeats 4000000 in
theorem via_late_save_1 :
    runVia 8 ⟨130, 130, 235, 155, 3, 3⟩
      (List.replicate 58 2048 ++ List.replicate 12 1000 ++ List.replicate 12 3000 ++
       List.replicate 16 1000 ++ List.replicate 124 2048)
      [⟨130, 150, 259, 179, 3, 3⟩, ⟨130, 170, 283, 203, 3, 3⟩, ⟨130, 190, 307, 227, 3, 3⟩,
       ⟨130, 220, 331, 251, 3, 3⟩, ⟨130, 240, 355, 275, 3, 3⟩, ⟨130, 260, 379, 299, 3, 3⟩,
       ⟨130, 260, 403, 299, 3, (-3)⟩, ⟨160, 250, 427, 275, 3, (-3)⟩,
       ⟨180, 220, 450, 251, (-3), (-3)⟩, ⟨140, 200, 426, 227, (-3), (-3)⟩,
       ⟨160, 180, 402, 203, (-3), (-3)⟩, ⟨200, 150, 378, 179, (-3), (-3)⟩,
       ⟨210, 130, 354, 155, (-3), (-3)⟩, ⟨210, 100, 330, 131, (-3), (-3)⟩,
       ⟨210, 80, 306, 107, (-3), (-3)⟩, ⟨210, 60, 282, 83, (-3), (-3)⟩,
       ⟨210, 30, 258, 59, (-3), (-3)⟩, ⟨210, 10, 234, 35, (-3), (-3)⟩,
       ⟨210, 0, 210, 11, (-3), (-3)⟩, ⟨210, 0, 186, 11, (-3), 3⟩, ⟨210, 5, 162, 35, (-3), 3⟩,
       ⟨210, 30, 138, 59, (-3), 3⟩, ⟨210, 50, 114, 83, (-3), 3⟩, ⟨210, 70, 90, 107, (-3), 3⟩,
       ⟨210, 100, 66, 131, (-3), 3⟩, ⟨210, 120, 42, 155, (-3), 3⟩, ⟨210, 150, 18, 179, (-3), 3⟩,
       ⟨210, 160, 0, 197, (-3), 3⟩] = true := by
  decide

theorem run_late_save_1 :
    Pong.run ⟨130, 130, 235, 155, 3, 3⟩
      (List.replicate 58 2048 ++ List.replicate 12 1000 ++ List.replicate 12 3000 ++
       List.replicate 16 1000 ++ List.replicate 124 2048) =
      ⟨210, 160, 0, 197, (-3), 3⟩ :=
  runVia_sound 8 _ _ _ via_late_save_1

/-- The state 222 ticks into a game in which the player holds the paddle, moves it
down, up, down again and holds it. -/
theorem run_to_late_save :
    Pong.run Pong.init
      (List.replicate 58 2048 ++ List.replicate 12 1000 ++ List.replicate 12 3000 ++
       List.replicate 16 1000 ++ List.replicate 124 2048) =
      ⟨210, 160, 0, 197, (-3), 3⟩ := by
  have h0 : Pong.init = ⟨130, 130, 235, 155, 3, 3⟩ := by decide
  rw [h0]
  exact run_late_save_1

set_option maxRecDepth 4000 in
set_option maxHeartbeats 4000000 in
theorem via_corner_exit_1 :
    runVia 8 ⟨130, 130, 235, 155, 3, 3⟩
      (List.replicate 224 2048)
      [⟨130, 150, 259, 179, 3, 3⟩, ⟨130, 170, 283, 203, 3, 3⟩, ⟨130, 190, 307, 227, 3, 3⟩,
       ⟨130, 220, 331, 251, 3, 3⟩, ⟨130, 240, 355, 275, 3, 3⟩, ⟨130, 260, 379, 299, 3, 3⟩,
       ⟨130, 260, 403, 299, 3, (-3)⟩, ⟨130, 250, 427, 275, 3, (-3)⟩,
       ⟨130, 220, 450, 251, (-3), (-3)⟩, ⟨130, 200, 426, 227, (-3), (-3)⟩,
       ⟨130, 180, 402, 203, (-3), (-3)⟩, ⟨130, 150, 378, 179, (-3), (-3)⟩,
       ⟨130, 130, 354, 155, (-3), (-3)⟩, ⟨130, 100, 330, 131, (-3), (-3)⟩,
       ⟨130, 80, 306, 107, (-3), (-3)⟩, ⟨130, 60, 282, 83, (-3), (-3)⟩,
       ⟨130, 30, 258, 59, (-3), (-3)⟩, ⟨130, 10, 234, 35, (-3), (-3)⟩,
       ⟨130, 0, 210, 11, (-3), (-3)⟩, ⟨130, 0, 186, 11, (-3), 3⟩, ⟨130, 5, 162, 35, (-3), 3⟩,
       ⟨130, 30, 138, 59, (-3), 3⟩, ⟨130, 50, 114, 83, (-3), 3⟩, ⟨130, 70, 90, 107, (-3), 3⟩,
       ⟨130, 100, 66, 131, (-3), 3⟩, ⟨130, 120, 42, 155, (-3), 3⟩, ⟨130, 150, 20, 179, 3, 3⟩,
       ⟨130, 170, 44, 203, 3, 3⟩] = true := by
  decide

theorem run_corner_exit_1 :
    Pong.run ⟨130, 130, 235, 155, 3, 3⟩
      (List.replicate 224 2048) =
      ⟨130, 170, 44, 203, 3, 3⟩ :=
  runVia_sound 8 _ _ _ via_corner_exit_1

set_option maxRecDepth 4000 in
set_option maxHeartbeats 4000000 in
theorem via_corner_exit_2 :
    runVia 8 ⟨130, 170, 44, 203, 3, 3⟩
      (List.replicate 224 2048)
      [⟨130, 190, 68, 227, 3, 3⟩, ⟨130, 220, 92, 251, 3, 3⟩, ⟨130, 240, 116, 275, 3, 3⟩,
       ⟨130, 260, 140, 299, 3, 3⟩, ⟨130, 260, 164, 299, 3, (-3)⟩, ⟨130, 250, 188, 275, 3, (-3)⟩,
       ⟨130, 220, 212, 251, 3, (-3)⟩, ⟨130, 200, 236, 227, 3, (-3)⟩,
       ⟨130, 180, 260, 203, 3, (-3)⟩, ⟨130, 150, 284, 179, 3, (-3)⟩,
       ⟨130, 130, 308, 155, 3, (-3)⟩, ⟨130, 100, 332, 131, 3, (-3)⟩, ⟨130, 80, 356, 107, 3, (-3)⟩,
       ⟨130, 60, 380, 83, 3, (-3)⟩, ⟨130, 30, 404, 59, 3, (-3)⟩, ⟨130, 10, 428, 35, 3, (-3)⟩,
       ⟨130, 0, 450, 11, (-3), (-3)⟩, ⟨130, 0, 426, 11, (-3), 3⟩, ⟨130, 5, 402, 35, (-3), 3⟩,
       ⟨130, 30, 378, 59, (-3), 3⟩, ⟨130, 50, 354, 83, (-3), 3⟩, ⟨130, 70, 330, 107, (-3), 3⟩,
       ⟨130, 100, 306, 131, (-3), 3⟩, ⟨130, 120, 282, 155, (-3), 3⟩,
       ⟨130, 150, 258, 179, (-3), 3⟩, ⟨130, 170, 234, 203, (-3), 3⟩,
       ⟨130, 190, 210, 227, (-3), 3⟩, ⟨130, 220, 186, 251, (-3), 3⟩] = true := by
  decide

theorem run_corner_exit_2 :
    Pong.run ⟨130, 170, 44, 203, 3, 3⟩
      (List.replicate 224 2048) =
      ⟨130, 220, 186, 251, (-3), 3⟩ :=
  runVia_sound 8 _ _ _ via_corner_exit_2

set_option maxRecDepth 4000 in
set_option maxHeartbeats 4000000 in
theorem via_corner_exit_3 :
    runVia 8 ⟨130, 220, 186, 251, (-3), 3⟩
      (List.replicate 224 2048)
      [⟨130, 240, 162, 275, (-3), 3⟩, ⟨130, 260, 138, 299, (-3), 3⟩,
       ⟨130, 260, 114, 299, (-3), (-3)⟩, ⟨130, 250, 90, 275, (-3), (-3)⟩,
       ⟨130, 220, 66, 251, (-3), (-3)⟩, ⟨130, 200, 42, 227, (-3), (-3)⟩,
       ⟨130, 180, 18, 203, (-3), (-3)⟩, ⟨130, 150, 29, 179, 3, (-3)⟩,
       ⟨130, 130, 53, 155, 3, (-3)⟩, ⟨130, 100, 77, 131, 3, (-3)⟩, ⟨130, 80, 101, 107, 3, (-3)⟩,
       ⟨130, 60, 125, 83, 3, (-3)⟩, ⟨130, 30, 149, 59, 3, (-3)⟩, ⟨130, 10, 173, 35, 3, (-3)⟩,
       ⟨130, 0, 197, 11, 3, (-3)⟩, ⟨130, 0, 221, 11, 3, 3⟩, ⟨130, 5, 245, 35, 3, 3⟩,
       ⟨130, 30, 269, 59, 3, 3⟩, ⟨130, 50, 293, 83, 3, 3⟩, ⟨130, 70, 317, 107, 3, 3⟩,
       ⟨130, 100, 341, 131, 3, 3⟩, ⟨130, 120, 365, 155, 3, 3⟩, ⟨130, 150, 389, 179, 3, 3⟩,
       ⟨130, 170, 413, 203, 3, 3⟩, ⟨130, 190, 437, 227, 3, 3⟩, ⟨130, 220, 441, 251, (-3), 3⟩,
       ⟨130, 240, 417, 275, (-3), 3⟩, ⟨130, 260, 393, 299, (-3), 3⟩] = true := by
  decide

theorem run_corner_exit_3 :
    Pong.run ⟨130, 220, 186, 251, (-3), 3⟩
      (List.replicate 224 2048) =
      ⟨130, 260, 393, 299, (-3), 3⟩ :=
  runVia_sound 8 _ _ _ via_corner_exit_3

set_option maxRecDepth 4000 in
set_option maxHeartbeats 4000000 in
theorem via_corner_exit_4 :
    runVia 8 ⟨130, 260, 393, 299, (-3), 3⟩
      (List.replicate 111 2048 ++ List.replicate 14 3000 ++ List.replicate 99 2048)
      [⟨130, 260, 369, 299, (-3), (-3)⟩, ⟨130, 250, 345, 275, (-3), (-3)⟩,
       ⟨130, 220, 321, 251, (-3), (-3)⟩, ⟨130, 200, 297, 227, (-3), (-3)⟩,
       ⟨130, 180, 273, 203, (-3), (-3)⟩, ⟨130, 150, 249, 179, (-3), (-3)⟩,
       ⟨130, 130, 225, 155, (-3), (-3)⟩, ⟨130, 100, 201, 131, (-3), (-3)⟩,
       ⟨130, 80, 177, 107, (-3), (-3)⟩, ⟨130, 60, 153, 83, (-3), (-3)⟩,
       ⟨130, 30, 129, 59, (-3), (-3)⟩, ⟨130, 10, 105, 35, (-3), (-3)⟩,
       ⟨130, 0, 81, 11, (-3), (-3)⟩, ⟨125, 0, 57, 11, (-3), 3⟩, ⟨85, 5, 33, 35, (-3), 3⟩,
       ⟨60, 30, 29, 59, 3, 3⟩, ⟨60, 50, 53, 83, 3, 3⟩, ⟨60, 70, 77, 107, 3, 3⟩,
       ⟨60, 100, 101, 131, 3, 3⟩, ⟨60, 120, 125, 155, 3, 3⟩, ⟨60, 150, 149, 179, 3, 3⟩,
       ⟨60, 170, 173, 203, 3, 3⟩, ⟨60, 190, 197, 227, 3, 3⟩, ⟨60, 220, 221, 251, 3, 3⟩,
       ⟨60, 240, 245, 275, 3, 3⟩, ⟨60, 260, 269, 299, 3, 3⟩, ⟨60, 260, 293, 299, 3, (-3)⟩,
       ⟨60, 250, 317, 275, 3, (-3)⟩] = true := by
  decide

theorem run_corner_exit_4 :
    Pong.run ⟨130, 260, 393, 299, (-3), 3⟩
      (List.replicate 111 2048 ++ List.replicate 14 3000 ++ List.replicate 99 2048) =
      ⟨60, 250, 317, 275, 3, (-3)⟩ :=
  runVia_sound 8 _ _ _ via_corner_exit_4

set_option maxRecDepth 4000 in
set_option maxHeartbeats 4000000 in
theorem via_corner_exit_5 :
    runVia 8 ⟨60, 250, 317, 275, 3, (-3)⟩
      (List.replicate 195 2048)
      [⟨60, 220, 341, 251, 3, (-3)⟩, ⟨60, 200, 365, 227, 3, (-3)⟩, ⟨60, 180, 389, 203, 3, (-3)⟩,
       ⟨60, 150, 413, 179, 3, (-3)⟩, ⟨60, 130, 437, 155, 3, (-3)⟩,
       ⟨60, 100, 441, 131, (-3), (-3)⟩, ⟨60, 80, 417, 107, (-3), (-3)⟩,
       ⟨60, 60, 393, 83, (-3), (-3)⟩, ⟨60, 30, 369, 59, (-3), (-3)⟩,
       ⟨60, 10, 345, 35, (-3), (-3)⟩, ⟨60, 0, 321, 11, (-3), (-3)⟩, ⟨60, 0, 297, 11, (-3), 3⟩,
       ⟨60, 5, 273, 35, (-3), 3⟩, ⟨60, 30, 249, 59, (-3), 3⟩, ⟨60, 50, 225, 83, (-3), 3⟩,
       ⟨60, 70, 201, 107, (-3), 3⟩, ⟨60, 100, 177, 131, (-3), 3⟩, ⟨60, 120, 153, 155, (-3), 3⟩,
       ⟨60, 150, 129, 179, (-3), 3⟩, ⟨60, 170, 105, 203, (-3), 3⟩, ⟨60, 190, 81, 227, (-3), 3⟩,
       ⟨60, 220, 57, 251, (-3), 3⟩, ⟨60, 240, 33, 275, (-3), 3⟩, ⟨60, 260, 9, 299, (-3), 3⟩,
       ⟨60, 260, 0, 308, (-3), 3⟩] = true := by
  decide

theorem run_corner_exit_5 :
    Pong.run ⟨60, 250, 317, 275, 3, (-3)⟩
      (List.replicate 195 2048) =
      ⟨60, 260, 0, 308, (-3), 3⟩ :=
  runVia_sound 8 _ _ _ via_corner_exit_5

/-- The state 1091 ticks into a game in which the player holds the paddle, moves
it up for 14 ticks and holds it again. -/
theorem run_to_corner_exit :
    Pong.run Pong.init
      (List.replicate 783 2048 ++ List.replicate 14 3000 ++ List.replicate 294 2048) =
      ⟨60, 260, 0, 308, (-3), 3⟩ := by
  have e : (List.replicate 783 2048 ++ List.replicate 14 3000 ++ List.replicate 294 2048) =
      (List.replicate 224 2048) ++
      ((List.replicate 224 2048) ++
      ((List.replicate 224 2048) ++
      ((List.replicate 111 2048 ++ List.replicate 14 3000 ++ List.replicate 99 2048) ++
      ((List.replicate 195 2048))))) := by
    rw [show (783 : Nat) = 224 + (224 + (224 + (111))) from rfl,
      show (294 : Nat) = 99 + (195) from rfl]
    simp only [List.replicate_add, List.append_assoc]
  have h0 : Pong.init = ⟨130, 130, 235, 155, 3, 3⟩ := by decide
  rw [e, h0, run_append, run_corner_exit_1, run_append, run_corner_exit_2, run_append, run_corner_exit_3, run_append, run_corner_exit_4, run_corner_exit_5]

/-! ## C6: ball reset -/

/-- C6, as stated, fails, at a state reached in play: 222 ticks from the start
the ball is at `(0, 197)` moving left and down, and the left paddle is at
`y = 210`.  The position update gives `ball_x = -3 < 0` and `ball_y = 200`,
level with the paddle, so the tick ends with the ball flush against the paddle
at `x = 20` and moving right, not reset. -/
theorem ball_reset_counterexample :
    Pong.run Pong.init
      (List.replicate 58 2048 ++ List.replicate 12 1000 ++ List.replicate 12 3000 ++
        List.replicate 16 1000 ++ List.replicate 124 2048) = ⟨210, 160, 0, 197, -3, 3⟩ ∧
    (Pong.advance ⟨210, 160, 0, 197, -3, 3⟩ 2048).ball_x < 0 ∧
    Pong.tick ⟨210, 160, 0, 197, -3, 3⟩ 2048 = ⟨210, 165, 20, 200, 3, 3⟩ ∧
    ¬ ((Pong.tick ⟨210, 160, 0, 197, -3, 3⟩ 2048).ball_x = 235 ∧
       (Pong.tick ⟨210, 160, 0, 197, -3, 3⟩ 2048).ball_y = 155 ∧
       (Pong.tick ⟨210, 160, 0, 197, -3, 3⟩ 2048).ball_dx = 3 ∧
       (Pong.tick ⟨210, 160, 0, 197, -3, 3⟩ 2048).ball_dy = 3) := by
  exact ⟨run_to_late_save, by decide, by decide, by decide⟩

/-- C6, amended. From a bounded state, if after the position update the ball is
past the left edge (`ball_x < 0`) and not level with the left paddle, or past
the right edge (`ball_x + BALL_SIZE > WIDTH`) and not level with the right
paddle, then the tick ends with the ball at the centre `(235, 155)` with
velocity `(3, 3)`. -/
theorem ball_reset_after_miss (s : Pong.Game) (raw : Nat) (hs : Game.bounded s)
    (h : ((Pong.advance s raw).ball_x < 0 ∧
          ¬ ((Pong.advance s raw).ball_y + Pong.BALL_SIZE ≥ (Pong.advance s raw).paddle_y ∧
             (Pong.advance s raw).ball_y ≤
               (Pong.advance s raw).paddle_y + Pong.PADDLE_HEIGHT)) ∨
         ((Pong.advance s raw).ball_x + Pong.BALL_SIZE > (WIDTH : Int) ∧
          ¬ ((Pong.advance s raw).ball_y + Pong.BALL_SIZE ≥ (Pong.advance s raw).paddle2_y ∧
             (Pong.advance s raw).ball_y ≤
               (Pong.advance s raw).paddle2_y + Pong.PADDLE_HEIGHT))) :
    (Pong.tick s raw).ball_x = 235 ∧ (Pong.tick s raw).ball_y = 155 ∧
    (Pong.tick s raw).ball_dx = 3 ∧ (Pong.tick s raw).ball_dy = 3 := by
  obtain ⟨_, _, bx, by1, bp, bp2⟩ := Pong.advance_bounded s raw hs
  unfold Pong.tick
  rw [Pong.resolve_miss (Pong.advance s raw) bx by1 bp bp2 h]
  have c1 : (WIDTH : Int) / 2 - Pong.BALL_SIZE / 2 = 235 := by decide
  have c2 : (HEIGHT : Int) / 2 - Pong.BALL_SIZE / 2 = 155 := by decide
  exact ⟨c1, c2, rfl, rfl⟩

/-- C6 (amended) at a ball leaving on the left, far below the paddle. -/
theorem ball_reset_after_miss_witness :
    Game.bounded ⟨130, 130, 1, 250, -3, 3⟩ ∧
    (((Pong.advance ⟨130, 130, 1, 250, -3, 3⟩ 2048).ball_x < 0 ∧
      ¬ ((Pong.advance ⟨130, 130, 1, 250, -3, 3⟩ 2048).ball_y + Pong.BALL_SIZE ≥
            (Pong.advance ⟨130, 130, 1, 250, -3, 3⟩ 2048).paddle_y ∧
         (Pong.advance ⟨130, 130, 1, 250, -3, 3⟩ 2048).ball_y ≤
            (Pong.advance ⟨130, 130, 1, 250, -3, 3⟩ 2048).paddle_y + Pong.PADDLE_HEIGHT)) ∨
     ((Pong.advance ⟨130, 130, 1, 250, -3, 3⟩ 2048).ball_x + Pong.BALL_SIZE > (WIDTH : Int) ∧
      ¬ ((Pong.advance ⟨130, 130, 1, 250, -3, 3⟩ 2048).ball_y + Pong.BALL_SIZE ≥
            (Pong.advance ⟨130, 130, 1, 250, -3, 3⟩ 2048).paddle2_y ∧
         (Pong.advance ⟨130, 130, 1, 250, -3, 3⟩ 2048).ball_y ≤
            (Pong.advance ⟨130, 130, 1, 250, -3, 3⟩ 2048).paddle2_y + Pong.PADDLE_HEIGHT))) ∧
    ((Pong.tick ⟨130, 130, 1, 250, -3, 3⟩ 2048).ball_x = 235 ∧
     (Pong.tick ⟨130, 130, 1, 250, -3, 3⟩ 2048).ball_y = 155 ∧
     (Pong.tick ⟨130, 130, 1, 250, -3, 3⟩ 2048).ball_dx = 3 ∧
     (Pong.tick ⟨130, 130, 1, 250, -3, 3⟩ 2048).ball_dy = 3) :=
  ⟨by decide, by decide,
    ball_reset_after_miss ⟨130, 130, 1, 250, -3, 3⟩ 2048 (by decide) (by decide)⟩

/-! ## C7: ball bounce -/

/-- C7, as stated, fails, at a state reached in play: 1091 ticks from the start
the ball is at `(0, 308)` moving left and down with `ball_dy = 3`, and the left
paddle is at `y = 60`.  The position update gives `ball_y + BALL_SIZE = 321 ≥
HEIGHT`, the edge check negates `ball_dy` to `-3`, and the scoring check of the
same tick (`ball_x = -3 < 0`) sets it back to `3`, which is not `-dy`. -/
theorem ball_bounce_counterexample :
    Pong.run Pong.init
      (List.replicate 783 2048 ++ List.replicate 14 3000 ++ List.replicate 294 2048) =
        ⟨60, 260, 0, 308, -3, 3⟩ ∧
    (Pong.advance ⟨60, 260, 0, 308, -3, 3⟩ 2048).ball_y + Pong.BALL_SIZE ≥ (HEIGHT : Int) ∧
    (Pong.bounce_edges (Pong.advance ⟨60, 260, 0, 308, -3, 3⟩ 2048)).ball_dy = -3 ∧
    Pong.tick ⟨60, 260, 0, 308, -3, 3⟩ 2048 = ⟨60, 260, 235, 155, 3, 3⟩ ∧
    ¬ ((Pong.tick ⟨60, 260, 0, 308, -3, 3⟩ 2048).ball_dy = -3) := by
  exact ⟨run_to_corner_exit, by decide, by decide, by decide, by decide⟩

/-- C7, amended. From a bounded state, if after the position update
`ball_y ≤ 0` or `ball_y + BALL_SIZE ≥ HEIGHT`, the edge check negates the
vertical velocity, the two paddle checks leave it at `-dy`, and the tick ends
with `-dy` unless its scoring check resets the ball (`ball_x < 0` or
`ball_x + BALL_SIZE > WIDTH` after the collision checks), in which case the
tick ends with `BALL_SPEED_Y`. -/
theorem ball_bounce_unless_reset (s : Pong.Game) (raw : Nat) (hs : Game.bounded s)
    (h : (Pong.advance s raw).ball_y ≤ 0 ∨
         (Pong.advance s raw).ball_y + Pong.BALL_SIZE ≥ (HEIGHT : Int)) :
    (Pong.bounce_edges (Pong.advance s raw)).ball_dy = -s.ball_dy ∧
    (Pong.check_collisions (Pong.advance s raw)).ball_dy = -s.ball_dy ∧
    (Pong.tick s raw).ball_dy =
      if (Pong.check_collisions (Pong.advance s raw)).ball_x < 0 ∨
          (Pong.check_collisions (Pong.advance s raw)).ball_x + Pong.BALL_SIZE > (WIDTH : Int)
      then Pong.BALL_SPEED_Y else -s.ball_dy := by
  obtain ⟨_, _, bx, by1, _, _⟩ := Pong.advance_bounded s raw hs
  have hd : -1000000000 ≤ s.ball_dy ∧ s.ball_dy ≤ 1000000000 := hs.2.2.2.2.2
  have w2 : wrapInt ((Pong.advance s raw).ball_y + 10) = (Pong.advance s raw).ball_y + 10 :=
    Pong.wrapInt_eq _ (by unfold inInt; omega)
  have wn : wrapInt (-s.ball_dy) = -s.ball_dy := Pong.wrapInt_eq _ (by unfold inInt; omega)
  have e1 : (Pong.bounce_edges (Pong.advance s raw)).ball_dy = -s.ball_dy := by
    unfold Pong.bounce_edges
    rw [if_pos]
    · show wrapInt (-(Pong.advance s raw).ball_dy) = -s.ball_dy
      rw [Pong.advance_ball_dy, wn]
    · simp only [Pong.BALL_SIZE] at h ⊢
      rw [w2]
      exact h
  have e2 : (Pong.check_collisions (Pong.advance s raw)).ball_dy = -s.ball_dy := by
    rw [Pong.check_collisions_ball_dy, e1]
  have w1 : wrapInt ((Pong.check_collisions (Pong.advance s raw)).ball_x + Pong.BALL_SIZE) =
      (Pong.check_collisions (Pong.advance s raw)).ball_x + Pong.BALL_SIZE := by
    apply Pong.wrapInt_eq
    unfold inInt
    simp only [Pong.BALL_SIZE]
    rcases Pong.check_collisions_ball_x (Pong.advance s raw) with c | c | c <;> rw [c] <;> omega
  refine ⟨e1, e2, ?_⟩
  unfold Pong.tick
  rw [Pong.check_scoring_ball_dy, w1, e2]

/-- C7 (amended) at a ball reaching the bottom edge in mid-field. -/
theorem ball_bounce_unless_reset_witness :
    Game.bounded ⟨130, 130, 238, 309, 3, 3⟩ ∧
    ((Pong.advance ⟨130, 130, 238, 309, 3, 3⟩ 2048).ball_y ≤ 0 ∨
      (Pong.advance ⟨130, 130, 238, 309, 3, 3⟩ 2048).ball_y + Pong.BALL_SIZE ≥ (HEIGHT : Int)) ∧
    ((Pong.bounce_edges (Pong.advance ⟨130, 130, 238, 309, 3, 3⟩ 2048)).ball_dy = -3 ∧
     (Pong.check_collisions (Pong.advance ⟨130, 130, 238, 309, 3, 3⟩ 2048)).ball_dy = -3 ∧
     (Pong.tick ⟨130, 130, 238, 309, 3, 3⟩ 2048).ball_dy =
       if (Pong.check_collisions (Pong.advance ⟨130, 130, 238, 309, 3, 3⟩ 2048)).ball_x < 0 ∨
          (Pong.check_collisions (Pong.advance ⟨130, 130, 238, 309, 3, 3⟩ 2048)).ball_x +
            Pong.BALL_SIZE > (WIDTH : Int)
       then Pong.BALL_SPEED_Y else -3) :=
  ⟨by decide, by decide,
    ball_bounce_unless_reset ⟨130, 130, 238, 309, 3, 3⟩ 2048 (by decide) (by decide)⟩

/-! ## C11: erase before draw -/

/-- C11. Every loop iteration hands exactly six rectangles to `drawRect`, in
this order: left paddle, right paddle and ball at the positions of the start of
the iteration in colour `(0,0,0)`, then left paddle, right paddle and ball at
the positions after the update in colour `(255,255,255)`; the hardware events of
the iteration are those of the three erase calls, then those of the three draw
calls, then the 30 ms sleep. -/
theorem erase_before_draw (s : Pong.Game) (raw : Nat) :
    (Pong.loop_body s raw).1 = Pong.tick s raw ∧
    (Pong.loop_body s raw).2 =
      [Pong.RectCall.mk 10 s.paddle_y 10 60 0 0 0,
       Pong.RectCall.mk 460 s.paddle2_y 10 60 0 0 0,
       Pong.RectCall.mk s.ball_x s.ball_y 10 10 0 0 0,
       Pong.RectCall.mk 10 (Pong.tick s raw).paddle_y 10 60 255 255 255,
       Pong.RectCall.mk 460 (Pong.tick s raw).paddle2_y 10 60 255 255 255,
       Pong.RectCall.mk (Pong.tick s raw).ball_x (Pong.tick s raw).ball_y 10 10 255 255 255] ∧
    (Pong.loop_body s raw).2.length = 6 ∧
    Pong.loop_events s raw =
      (Pong.drawRect 10 s.paddle_y 10 60 0 0 0 ++
       Pong.drawRect 460 s.paddle2_y 10 60 0 0 0 ++
       Pong.drawRect s.ball_x s.ball_y 10 10 0 0 0) ++
      (Pong.drawRect 10 (Pong.tick s raw).paddle_y 10 60 255 255 255 ++
       Pong.drawRect 460 (Pong.tick s raw).paddle2_y 10 60 255 255 255 ++
       Pong.drawRect (Pong.tick s raw).ball_x (Pong.tick s raw).ball_y 10 10 255 255 255) ++
      [Event.sleep_ms 30] := by
  have hW : ((WIDTH : Nat) : Int) - 20 = 460 := by decide
  refine ⟨rfl, ?_, rfl, ?_⟩
  · simp only [Pong.loop_body, Pong.draw_calls, Pong.paddle_x, Pong.paddle2_x,
      Pong.PADDLE_WIDTH, Pong.PADDLE_HEIGHT, Pong.BALL_SIZE, hW]
  · simp only [Pong.loop_events, Pong.loop_body, Pong.draw_calls, Pong.paddle_x,
      Pong.paddle2_x, Pong.PADDLE_WIDTH, Pong.PADDLE_HEIGHT, Pong.BALL_SIZE, hW,
      Pong.RectCall.events, List.map_cons, List.map_nil, List.flatten_cons,
      List.flatten_nil, List.append_nil, List.append_assoc]

/-! ## C16: settle delays of `lcd_init` -/

/-- C16, on the code: `lcd_init` of `Pong.cpp` sleeps once, 120 ms after the
soft reset 0x01; the sleep-out opcode 0x11 is followed directly by opcode 0x36.
The `lcd_init` of `asteroids_cpbk.c` does sleep 120 ms after 0x11. -/
theorem lcd_init_delays :
    Pong.lcd_init =
      [Event.gpio_put PIN_CS 0,
       Event.gpio_put PIN_DC 0, Event.spi_write_blocking Role.opcode [0x01],
       Event.sleep_ms 120,
       Event.gpio_put PIN_DC 0, Event.spi_write_blocking Role.opcode [0x11],
       Event.gpio_put PIN_DC 0, Event.spi_write_blocking Role.opcode [0x36],
       Event.gpio_put PIN_DC 1, Event.spi_write_blocking Role.param [0x28],
       Event.gpio_put PIN_DC 0, Event.spi_write_blocking Role.opcode [0x3A],
       Event.gpio_put PIN_DC 1, Event.spi_write_blocking Role.param [0x07],
       Event.gpio_put PIN_DC 0, Event.spi_write_blocking Role.opcode [0x21],
       Event.gpio_put PIN_DC 0, Event.spi_write_blocking Role.opcode [0x29]] ∧
    Asteroids.lcd_init =
      [Event.gpio_put PIN_RST 0, Event.sleep_ms 120,
       Event.gpio_put PIN_RST 1, Event.sleep_ms 120,
       Event.gpio_put PIN_DC 1, Event.spi_write_blocking Role.opcode [0x11],
       Event.sleep_ms 120,
       Event.gpio_put PIN_DC 1, Event.spi_write_blocking Role.opcode [0x36],
       Event.gpio_put PIN_DC 0, Event.spi_write_blocking Role.param [0x28],
       Event.gpio_put PIN_DC 1, Event.spi_write_blocking Role.opcode [0x3A],
       Event.gpio_put PIN_DC 0, Event.spi_write_blocking Role.param [0x07],
       Event.gpio_put PIN_DC 1, Event.spi_write_blocking Role.opcode [0x21],
       Event.sleep_ms 120,
       Event.gpio_put PIN_DC 1, Event.spi_write_blocking Role.opcode [0x29]] := by
  decide

/-! ## The paddles within one tick -/

namespace Pong

theorem ai_paddle_paddle2_y (s : Game) :
    (ai_paddle s).paddle2_y =
      if s.ball_y < wrapInt (s.paddle2_y + 30) ∧ s.paddle2_y > 0 then wrapInt (s.paddle2_y - 5)
      else if s.ball_y > wrapInt (s.paddle2_y + 30) ∧ s.paddle2_y < 260 then
        wrapInt (s.paddle2_y + 5)
      else s.paddle2_y := by
  have hH : ((HEIGHT : Nat) : Int) - PADDLE_HEIGHT = 260 := by decide
  have c1 : PADDLE_HEIGHT / 2 = 30 := by decide
  unfold ai_paddle
  simp only [hH, c1, PADDLE_SPEED]
  split_ifs <;> rfl

end Pong

/-! ## C14: the AI paddle -/

/-- C14, as stated, fails at the initial state: the ball's centre
`ball_y + BALL_SIZE/2 = 160` is level with the paddle's centre
`paddle2_y + PADDLE_HEIGHT/2 = 160`, and the tick moves the paddle up from 130
to 125, because the code compares `ball_y = 155`, the ball's top edge. -/
theorem ai_tracking_counterexample :
    (Pong.tick Pong.init 2048).paddle2_y = 125 ∧ Pong.init.paddle2_y = 130 ∧
    (Pong.tick Pong.init 2048).paddle2_y < Pong.init.paddle2_y ∧
    ¬ (Pong.init.ball_y + Pong.BALL_SIZE / 2 <
        Pong.init.paddle2_y + Pong.PADDLE_HEIGHT / 2) := by
  decide

/-- C14, amended. For every state whose `paddle2_y` and `paddle2_y + 30` are
`int` values, a tick leaves `paddle2_y` unchanged or changes it by exactly
`PADDLE_SPEED = 5`; it increases only if `ball_y > paddle2_y + PADDLE_HEIGHT/2`
(so also only if the ball's centre is below the paddle's centre), and it
decreases only if `ball_y < paddle2_y + PADDLE_HEIGHT/2`, where `ball_y` is the
ball's top edge at the start of the tick. -/
theorem ai_tracking (s : Pong.Game) (raw : Nat)
    (h1 : inInt s.paddle2_y) (h2 : inInt (s.paddle2_y + Pong.PADDLE_HEIGHT / 2)) :
    ((Pong.tick s raw).paddle2_y = s.paddle2_y ∨
     (Pong.tick s raw).paddle2_y = s.paddle2_y + Pong.PADDLE_SPEED ∨
     (Pong.tick s raw).paddle2_y = s.paddle2_y - Pong.PADDLE_SPEED) ∧
    ((Pong.tick s raw).paddle2_y > s.paddle2_y →
      s.ball_y > s.paddle2_y + Pong.PADDLE_HEIGHT / 2 ∧
      s.ball_y + Pong.BALL_SIZE / 2 > s.paddle2_y + Pong.PADDLE_HEIGHT / 2) ∧
    ((Pong.tick s raw).paddle2_y < s.paddle2_y →
      s.ball_y < s.paddle2_y + Pong.PADDLE_HEIGHT / 2) := by
  unfold inInt at h1 h2
  have c1 : Pong.PADDLE_HEIGHT / 2 = 30 := by decide
  have c2 : Pong.BALL_SIZE / 2 = 5 := by decide
  have c3 : Pong.PADDLE_SPEED = 5 := rfl
  rw [c1] at h2
  have w30 : wrapInt (s.paddle2_y + 30) = s.paddle2_y + 30 :=
    Pong.wrapInt_eq _ (by unfold inInt; omega)
  rw [Pong.tick_paddle2_y, Pong.ai_paddle_paddle2_y, Pong.move_paddle_paddle2_y,
    Pong.move_paddle_ball_y, w30, c1, c2, c3]
  split_ifs with a b
  · rw [Pong.wrapInt_eq (s.paddle2_y - 5) (by unfold inInt; omega)]
    omega
  · rw [Pong.wrapInt_eq (s.paddle2_y + 5) (by unfold inInt; omega)]
    omega
  · omega

/-- C14 (amended) at the initial state. -/
theorem ai_tracking_witness :
    (inInt Pong.init.paddle2_y ∧ inInt (Pong.init.paddle2_y + Pong.PADDLE_HEIGHT / 2)) ∧
    (((Pong.tick Pong.init 2048).paddle2_y = Pong.init.paddle2_y ∨
      (Pong.tick Pong.init 2048).paddle2_y = Pong.init.paddle2_y + Pong.PADDLE_SPEED ∨
      (Pong.tick Pong.init 2048).paddle2_y = Pong.init.paddle2_y - Pong.PADDLE_SPEED) ∧
     ((Pong.tick Pong.init 2048).paddle2_y > Pong.init.paddle2_y →
       Pong.init.ball_y > Pong.init.paddle2_y + Pong.PADDLE_HEIGHT / 2 ∧
       Pong.init.ball_y + Pong.BALL_SIZE / 2 >
         Pong.init.paddle2_y + Pong.PADDLE_HEIGHT / 2) ∧
     ((Pong.tick Pong.init 2048).paddle2_y < Pong.init.paddle2_y →
       Pong.init.ball_y < Pong.init.paddle2_y + Pong.PADDLE_HEIGHT / 2)) :=
  ⟨by decide, ai_tracking Pong.init 2048 (by decide) (by decide)⟩

/-! ## C15: the joystick -/

namespace Pong

end Pong

theorem pixelBytes_append (a b : List Event) :
    pixelBytes (a ++ b) = pixelBytes a ++ pixelBytes b := by
  induction a with
  | nil => rfl
  | cons e es ih =>
    cases e with
    | gpio_put pin value => simpa [pixelBytes] using ih
    | sleep_ms ms => simpa [pixelBytes] using ih
    | spi_write_blocking role data =>
      cases role <;> simp [pixelBytes, ih]

theorem fill_row_eq (w r g b : Nat) : Asteroids.fill_row (3 * w) r g b = rgbRow w r g b := by
  unfold Asteroids.fill_row
  have e : (3 * w + 2) / 3 = w := by omega
  rw [e]
  exact fill_rgb_exact w _ r g b (List.length_replicate _ _)

theorem take_rgbRow (w r g b : Nat) : (rgbRow w r g b).take (3 * w) = rgbRow w r g b :=
  List.take_of_length_le (by rw [rgbRow_length])

theorem pixelBytes_rows (n : Nat) (row : List Nat) :
    pixelBytes (List.replicate n
      [Event.gpio_put PIN_DC 0, Event.spi_write_blocking Role.pixel row]).flatten =
      (List.replicate n row).flatten := by
  induction n with
  | zero => rfl
  | succ n ih =>
    rw [List.replicate_succ, List.flatten_cons, pixelBytes_append, ih, List.replicate_succ,
      List.flatten_cons]
    simp [pixelBytes]

theorem pixelBytes_window (x y w h : Int) :
    pixelBytes (Asteroids.lcd_set_range x y w h ++ Asteroids.lcd_draw) = [] := by
  simp [Asteroids.lcd_set_range, Asteroids.lcd_draw, Asteroids.lcd_call,
    Asteroids.lcd_command, Asteroids.lcd_data, pixelBytes]

/-- What `lcd_fill` streams: the row of `w` pixels, `y` times, whatever `h` is. -/
theorem lcd_fill_pixelBytes (r g b x y w : Nat) (h : Int)
    (hy : y ≤ 4294967295) (hw : w ≤ 100000000) :
    pixelBytes (Asteroids.lcd_fill r g b (x : Int) (y : Int) (w : Int) h) =
      (List.replicate y (rgbRow w r g b)).flatten ∧
    (pixelBytes (Asteroids.lcd_fill r g b (x : Int) (y : Int) (w : Int) h)).length =
      3 * w * y := by
  have e1 : wrapInt ((w : Int) * 3) = ((3 * w : Nat) : Int) := by
    unfold wrapInt
    omega
  have e2 : toSizeT ((3 * w : Nat) : Int) = 3 * w := toSizeT_natCast _ (by omega)
  have e3 : toSizeT (y : Int) = y := toSizeT_natCast _ hy
  have e : pixelBytes (Asteroids.lcd_fill r g b (x : Int) (y : Int) (w : Int) h) =
      (List.replicate y (rgbRow w r g b)).flatten := by
    unfold Asteroids.lcd_fill
    simp only [e1, e2, e3]
    rw [pixelBytes_append, pixelBytes_window, fill_row_eq, take_rgbRow, pixelBytes_rows,
      List.nil_append]
  refine ⟨e, ?_⟩
  rw [e, flatten_replicate_rgbRow, rgbRow_length, Nat.mul_assoc]

/-! ## C17: row streaming in `lcd_fill` -/

/-- C17, on the code: the streaming loop of `lcd_fill` runs `y` times, not `h`
times.  With colour `(0, 154, 0)`, `lcd_fill(0, 0, 1, 1)` writes no pixel byte at
all and `lcd_fill(0, 2, 1, 1)` writes the one-pixel row twice (6 bytes), where
one row of one pixel, `3*w*h = 3` bytes, is asked for. -/
theorem lcd_fill_streams_y_rows :
    pixelBytes (Asteroids.lcd_fill 0 154 0 0 0 1 1) = [] ∧
    pixelBytes (Asteroids.lcd_fill 0 154 0 0 2 1 1) = [0, 154, 0, 0, 154, 0] ∧
    (pixelBytes (Asteroids.lcd_fill 0 154 0 0 0 1 1)).length ≠ 3 * 1 * 1 ∧
    (pixelBytes (Asteroids.lcd_fill 0 154 0 0 2 1 1)).length ≠ 3 * 1 * 1 := by
  decide

/-! ## C18: pixel tagging in the second driver -/

theorem asteroids_wire_window_append (dc : Nat) (x y w h : Int) (rest : List Event) :
    wire dc (Asteroids.lcd_set_range x y w h ++ Asteroids.lcd_draw ++ rest) =
      wire dc (Asteroids.lcd_set_range x y w h ++ Asteroids.lcd_draw) ++ wire 1 rest := by
  simp [Asteroids.lcd_set_range, Asteroids.lcd_draw, Asteroids.lcd_call,
    Asteroids.lcd_command, Asteroids.lcd_data, wire]

/-- C18, on the code: in `asteroids_cpbk.c` an opcode goes out at level 1
(`lcd_command`) and a parameter byte at level 0 (`lcd_data`); `lcd_draw` leaves
the control line at 1, so `lcd_clear` transfers every pixel byte at level 1,
the level of the opcodes and not the level `lcd_data` asserts. -/
theorem asteroids_pixels_at_command_level (dc r g b : Nat) :
    (∀ cmd, wire dc (Asteroids.lcd_command cmd) = [Xfer.mk 1 Role.opcode cmd]) ∧
    (∀ v, wire dc (Asteroids.lcd_data [v] 1) = [Xfer.mk 0 Role.param v]) ∧
    wire dc (Asteroids.lcd_clear r g b) =
      [Xfer.mk 1 Role.opcode 0x2A, Xfer.mk 0 Role.param 0, Xfer.mk 0 Role.param 0,
       Xfer.mk 0 Role.param 1, Xfer.mk 0 Role.param 0xDF,
       Xfer.mk 1 Role.opcode 0x2B, Xfer.mk 0 Role.param 0, Xfer.mk 0 Role.param 0,
       Xfer.mk 0 Role.param 1, Xfer.mk 0 Role.param 0x3F,
       Xfer.mk 1 Role.opcode 0x2C] ++
        (rgbRow (WIDTH * HEIGHT) r g b).map (fun byte => Xfer.mk 1 Role.pixel byte) ∧
    (∀ t ∈ wire dc (Asteroids.lcd_clear r g b), t.role = Role.pixel → t.dc = 1) := by
  have hpre : wire dc (Asteroids.lcd_set_range 0 0 (WIDTH : Int) (HEIGHT : Int) ++
      Asteroids.lcd_draw) =
      [Xfer.mk 1 Role.opcode 0x2A, Xfer.mk 0 Role.param 0, Xfer.mk 0 Role.param 0,
       Xfer.mk 0 Role.param 1, Xfer.mk 0 Role.param 0xDF,
       Xfer.mk 1 Role.opcode 0x2B, Xfer.mk 0 Role.param 0, Xfer.mk 0 Role.param 0,
       Xfer.mk 0 Role.param 1, Xfer.mk 0 Role.param 0x3F,
       Xfer.mk 1 Role.opcode 0x2C] := by
    rfl
  have hrow : (Asteroids.fill_row (WIDTH * 3) r g b).take (WIDTH * 3) = rgbRow WIDTH r g b := by
    rw [Nat.mul_comm WIDTH 3, fill_row_eq, take_rgbRow]
  have hwire : wire dc (Asteroids.lcd_clear r g b) =
      [Xfer.mk 1 Role.opcode 0x2A, Xfer.mk 0 Role.param 0, Xfer.mk 0 Role.param 0,
       Xfer.mk 0 Role.param 1, Xfer.mk 0 Role.param 0xDF,
       Xfer.mk 1 Role.opcode 0x2B, Xfer.mk 0 Role.param 0, Xfer.mk 0 Role.param 0,
       Xfer.mk 0 Role.param 1, Xfer.mk 0 Role.param 0x3F,
       Xfer.mk 1 Role.opcode 0x2C] ++
        (rgbRow (WIDTH * HEIGHT) r g b).map (fun byte => Xfer.mk 1 Role.pixel byte) := by
    unfold Asteroids.lcd_clear
    simp only []
    rw [asteroids_wire_window_append, wire_replicate, hrow, flatten_replicate_rgbRow, hpre]
  refine ⟨fun cmd => rfl, fun v => rfl, hwire, ?_⟩
  intro t ht hrole
  rw [hwire, List.mem_append] at ht
  rcases ht with h | h
  · simp at h
    rcases h with h | h | h | h | h | h | h | h | h <;> subst h <;>
      (first | rfl | cases hrole)
  · simp at h
    obtain ⟨a, _, rfl⟩ := h
    rfl

/-! ## The paddle checks and the scoring check together -/

namespace Pong

/-- The outcome of the two paddle checks and the scoring check on the state `b`
left by the edge check: the paddles are untouched, and the ball is either reset,
or keeps its row and vertical velocity and ends on the screen horizontally:
flush against the left paddle, flush against the right paddle, or where it was
with neither paddle test satisfied. -/
theorem resolve_cases (b : Game) (hx : inInt (b.ball_x + 10)) :
    (check_scoring (hit_paddle2 (hit_paddle b))).paddle_y = b.paddle_y ∧
    (check_scoring (hit_paddle2 (hit_paddle b))).paddle2_y = b.paddle2_y ∧
    (((check_scoring (hit_paddle2 (hit_paddle b))).ball_x = 235 ∧
      (check_scoring (hit_paddle2 (hit_paddle b))).ball_y = 155 ∧
      (check_scoring (hit_paddle2 (hit_paddle b))).ball_dx = 3 ∧
      (check_scoring (hit_paddle2 (hit_paddle b))).ball_dy = 3) ∨
     ((check_scoring (hit_paddle2 (hit_paddle b))).ball_y = b.ball_y ∧
      (check_scoring (hit_paddle2 (hit_paddle b))).ball_dy = b.ball_dy ∧
      ((check_scoring (hit_paddle2 (hit_paddle b))).ball_dx = b.ball_dx ∨
       (check_scoring (hit_paddle2 (hit_paddle b))).ball_dx = wrapInt (-b.ball_dx)) ∧
      0 ≤ (check_scoring (hit_paddle2 (hit_paddle b))).ball_x ∧
      (check_scoring (hit_paddle2 (hit_paddle b))).ball_x ≤ 470 ∧
      ((check_scoring (hit_paddle2 (hit_paddle b))).ball_x = 20 ∨
       (check_scoring (hit_paddle2 (hit_paddle b))).ball_x = 450 ∨
       ((check_scoring (hit_paddle2 (hit_paddle b))).ball_x = b.ball_x ∧
        ¬ (b.ball_x ≤ 20 ∧ wrapInt (b.ball_y + 10) ≥ b.paddle_y ∧
            b.ball_y ≤ wrapInt (b.paddle_y + 60)) ∧
        ¬ (b.ball_x + 10 ≥ 460 ∧ wrapInt (b.ball_y + 10) ≥ b.paddle2_y ∧
            b.ball_y ≤ wrapInt (b.paddle2_y + 60)))))) := by
  unfold inInt at hx
  have hW : ((WIDTH : Nat) : Int) = 480 := rfl
  have hHt : ((HEIGHT : Nat) : Int) = 320 := rfl
  have wx : wrapInt (b.ball_x + 10) = b.ball_x + 10 := wrapInt_eq _ (by unfold inInt; omega)
  have k1 : wrapInt (10 + 10 + 10) = 30 := by decide
  have k2 : wrapInt (480 - 20 - 10 + 10) = 460 := by decide
  have k3 : (480 : Int) / 2 - 10 / 2 = 235 := by decide
  have k4 : (320 : Int) / 2 - 10 / 2 = 155 := by decide
  have k5 : (480 : Int) - 20 - 10 = 450 := by decide
  have k6 : (480 : Int) - 20 = 460 := by decide
  have k7 : (10 : Int) + 10 = 20 := by decide
  unfold check_scoring hit_paddle2 hit_paddle reset_ball
  simp only [paddle_x, paddle2_x, PADDLE_WIDTH, PADDLE_HEIGHT, BALL_SIZE, BALL_SPEED_X,
    BALL_SPEED_Y, hW, hHt]
  split_ifs <;> simp only [k1, k2, k3, k4, k5, k6, k7, wx] at * <;>
    first
    | omega
    | exact ⟨trivial, trivial, Or.inl ⟨trivial, trivial, trivial, trivial⟩⟩
    | exact ⟨trivial, trivial, Or.inr ⟨trivial, trivial, Or.inr trivial, by omega, by omega,
        Or.inl trivial⟩⟩
    | exact ⟨trivial, trivial, Or.inr ⟨trivial, trivial, Or.inr trivial, by omega, by omega,
        Or.inr (Or.inl (by omega))⟩⟩
    | exact ⟨trivial, trivial, Or.inr ⟨trivial, trivial, Or.inl trivial, by omega, by omega,
        Or.inr (Or.inr ⟨trivial, by assumption, by assumption⟩)⟩⟩

end Pong

namespace Pong

theorem tick_eq_resolve (s : Game) (raw : Nat) :
    tick s raw = check_scoring (hit_paddle2 (hit_paddle (bounce_edges (advance s raw)))) := rfl

end Pong

/-! ## C19: the ball stays on the screen horizontally -/

/-- C19. For every game state and joystick sample for which `ball_x + ball_dx`
and `ball_x + ball_dx + BALL_SIZE` do not overflow `int`, the state after one
tick has `0 ≤ ball_x` and `ball_x + BALL_SIZE ≤ WIDTH`, so neither x-test of the
`drawRect` guard holds for the ball's rectangle. -/
theorem ball_on_screen_x (s : Pong.Game) (raw : Nat)
    (hmove : inInt (s.ball_x + s.ball_dx))
    (hext : inInt (s.ball_x + s.ball_dx + Pong.BALL_SIZE)) :
    0 ≤ (Pong.tick s raw).ball_x ∧
    (Pong.tick s raw).ball_x + Pong.BALL_SIZE ≤ (WIDTH : Int) ∧
    ¬ ((Pong.tick s raw).ball_x < 0 ∨
       wrapInt ((Pong.tick s raw).ball_x + Pong.BALL_SIZE) > (WIDTH : Int)) := by
  have hW : ((WIDTH : Nat) : Int) = 480 := rfl
  have hB : Pong.BALL_SIZE = 10 := rfl
  rw [hB] at hext
  have ex : (Pong.bounce_edges (Pong.advance s raw)).ball_x = s.ball_x + s.ball_dx := by
    rw [Pong.bounce_edges_ball_x, Pong.advance_ball_x, Pong.wrapInt_eq _ hmove]
  have hx : inInt ((Pong.bounce_edges (Pong.advance s raw)).ball_x + 10) := by
    rw [ex]
    exact hext
  obtain ⟨_, _, hc⟩ := Pong.resolve_cases (Pong.bounce_edges (Pong.advance s raw)) hx
  rw [← Pong.tick_eq_resolve] at hc
  have hr : 0 ≤ (Pong.tick s raw).ball_x ∧ (Pong.tick s raw).ball_x ≤ 470 := by
    rcases hc with ⟨h235, _⟩ | ⟨_, _, _, h0, h470, _⟩
    · rw [h235]
      decide
    · exact ⟨h0, h470⟩
  have hw : wrapInt ((Pong.tick s raw).ball_x + 10) = (Pong.tick s raw).ball_x + 10 :=
    Pong.wrapInt_eq _ (by unfold inInt; omega)
  rw [hB, hW, hw]
  omega

/-- C19 at the initial state. -/
theorem ball_on_screen_x_witness :
    (inInt (Pong.init.ball_x + Pong.init.ball_dx) ∧
      inInt (Pong.init.ball_x + Pong.init.ball_dx + Pong.BALL_SIZE)) ∧
    (0 ≤ (Pong.tick Pong.init 2048).ball_x ∧
     (Pong.tick Pong.init 2048).ball_x + Pong.BALL_SIZE ≤ (WIDTH : Int) ∧
     ¬ ((Pong.tick Pong.init 2048).ball_x < 0 ∨
        wrapInt ((Pong.tick Pong.init 2048).ball_x + Pong.BALL_SIZE) > (WIDTH : Int))) :=
  ⟨by decide, ball_on_screen_x Pong.init 2048 (by decide) (by decide)⟩

/-! ## C13: the ball and the paddles do not overlap -/

/-- C13. From a bounded state, after a tick no pixel lies both in the ball's
rectangle `[ball_x, ball_x+BALL_SIZE) × [ball_y, ball_y+BALL_SIZE)` and in the
left paddle's rectangle `[10, 20) × [paddle_y, paddle_y+PADDLE_HEIGHT)`, and none
lies both in the ball's rectangle and in the right paddle's rectangle
`[460, 470) × [paddle2_y, paddle2_y+PADDLE_HEIGHT)`, with all positions taken
after the tick. -/
theorem ball_clear_of_paddles (s : Pong.Game) (raw : Nat) (hs : Game.bounded s)
    (px py : Int) :
    Pong.paddle_x = 10 ∧ Pong.paddle2_x = 460 ∧
    ¬ (inRect (Pong.tick s raw).ball_x (Pong.tick s raw).ball_y Pong.BALL_SIZE Pong.BALL_SIZE
          px py ∧
       inRect Pong.paddle_x (Pong.tick s raw).paddle_y Pong.PADDLE_WIDTH Pong.PADDLE_HEIGHT
          px py) ∧
    ¬ (inRect (Pong.tick s raw).ball_x (Pong.tick s raw).ball_y Pong.BALL_SIZE Pong.BALL_SIZE
          px py ∧
       inRect Pong.paddle2_x (Pong.tick s raw).paddle2_y Pong.PADDLE_WIDTH Pong.PADDLE_HEIGHT
          px py) := by
  obtain ⟨_, _, bx, by1, bp, bp2⟩ := Pong.advance_bounded s raw hs
  have hx : inInt ((Pong.bounce_edges (Pong.advance s raw)).ball_x + 10) := by
    rw [Pong.bounce_edges_ball_x]
    unfold inInt
    omega
  obtain ⟨hp, hp2, hc⟩ := Pong.resolve_cases (Pong.bounce_edges (Pong.advance s raw)) hx
  rw [← Pong.tick_eq_resolve] at hp hp2 hc
  rw [Pong.bounce_edges_paddle_y] at hp
  rw [Pong.bounce_edges_paddle2_y] at hp2
  simp only [Pong.bounce_edges_ball_x, Pong.bounce_edges_ball_y, Pong.bounce_edges_paddle_y,
    Pong.bounce_edges_paddle2_y] at hc
  have w1 : wrapInt ((Pong.advance s raw).ball_y + 10) = (Pong.advance s raw).ball_y + 10 :=
    Pong.wrapInt_eq _ (by unfold inInt; omega)
  have w2 : wrapInt ((Pong.advance s raw).paddle_y + 60) = (Pong.advance s raw).paddle_y + 60 :=
    Pong.wrapInt_eq _ (by unfold inInt; omega)
  have w3 : wrapInt ((Pong.advance s raw).paddle2_y + 60) =
      (Pong.advance s raw).paddle2_y + 60 :=
    Pong.wrapInt_eq _ (by unfold inInt; omega)
  rw [w1, w2, w3] at hc
  have e460 : Pong.paddle2_x = 460 := by decide
  refine ⟨rfl, e460, ?_, ?_⟩
  · unfold inRect
    rw [hp]
    simp only [Pong.paddle_x, Pong.PADDLE_WIDTH, Pong.PADDLE_HEIGHT, Pong.BALL_SIZE]
    rcases hc with ⟨h1, h2, _, _⟩ | ⟨h1, _, _, _, _, h6⟩
    · omega
    · rcases h6 with h | h | ⟨h, hL, _⟩ <;> omega
  · unfold inRect
    rw [hp2, e460]
    simp only [Pong.PADDLE_WIDTH, Pong.PADDLE_HEIGHT, Pong.BALL_SIZE]
    rcases hc with ⟨h1, h2, _, _⟩ | ⟨h1, _, _, _, _, h6⟩
    · omega
    · rcases h6 with h | h | ⟨h, _, hR⟩ <;> omega

/-- C13 at the initial state, for the pixel `(15, 150)` of the left paddle. -/
theorem ball_clear_of_paddles_witness :
    Game.bounded Pong.init ∧
    (Pong.paddle_x = 10 ∧ Pong.paddle2_x = 460 ∧
     ¬ (inRect (Pong.tick Pong.init 2048).ball_x (Pong.tick Pong.init 2048).ball_y
          Pong.BALL_SIZE Pong.BALL_SIZE 15 150 ∧
        inRect Pong.paddle_x (Pong.tick Pong.init 2048).paddle_y Pong.PADDLE_WIDTH
          Pong.PADDLE_HEIGHT 15 150) ∧
     ¬ (inRect (Pong.tick Pong.init 2048).ball_x (Pong.tick Pong.init 2048).ball_y
          Pong.BALL_SIZE Pong.BALL_SIZE 15 150 ∧
        inRect Pong.paddle2_x (Pong.tick Pong.init 2048).paddle2_y Pong.PADDLE_WIDTH
          Pong.PADDLE_HEIGHT 15 150)) :=
  ⟨by decide, ball_clear_of_paddles Pong.init 2048 (by decide) 15 150⟩

/-! ## The ball in play -/

namespace Pong

theorem bounce_edges_ball_dy_eq (a : Game) :
    (bounce_edges a).ball_dy = if edge_hit a then wrapInt (-a.ball_dy) else a.ball_dy := by
  unfold bounce_edges edge_hit
  split_ifs <;> rfl

/-- One tick on a ball in play: it is reset, or it moves by its velocity, ends
on the screen horizontally, and its vertical velocity is negated exactly when
the edge test holds after the move. -/
theorem tick_ball_in_play (s : Game) (raw : Nat) (h : ballOk s) :
    ((tick s raw).ball_x = 235 ∧ (tick s raw).ball_y = 155 ∧
      (tick s raw).ball_dx = 3 ∧ (tick s raw).ball_dy = 3) ∨
    ((tick s raw).ball_y = s.ball_y + s.ball_dy ∧
     (tick s raw).ball_dy = (if edge_hit (advance s raw) then -s.ball_dy else s.ball_dy) ∧
     ((tick s raw).ball_dx = s.ball_dx ∨ (tick s raw).ball_dx = -s.ball_dx) ∧
     0 ≤ (tick s raw).ball_x ∧ (tick s raw).ball_x ≤ 470) := by
  unfold ballOk at h
  obtain ⟨hbx, hby, hdx, hdy, _, _⟩ := h
  have ex : wrapInt (s.ball_x + s.ball_dx) = s.ball_x + s.ball_dx :=
    wrapInt_eq _ (by unfold inInt; omega)
  have ey : wrapInt (s.ball_y + s.ball_dy) = s.ball_y + s.ball_dy :=
    wrapInt_eq _ (by unfold inInt; omega)
  have ndx : wrapInt (-s.ball_dx) = -s.ball_dx := wrapInt_eq _ (by unfold inInt; omega)
  have ndy : wrapInt (-s.ball_dy) = -s.ball_dy := wrapInt_eq _ (by unfold inInt; omega)
  have hx : inInt ((bounce_edges (advance s raw)).ball_x + 10) := by
    rw [bounce_edges_ball_x, advance_ball_x, ex]
    unfold inInt
    omega
  obtain ⟨_, _, hc⟩ := resolve_cases (bounce_edges (advance s raw)) hx
  rw [← tick_eq_resolve] at hc
  rw [bounce_edges_ball_y, bounce_edges_ball_dx, bounce_edges_ball_dy_eq, advance_ball_y,
    advance_ball_dx, advance_ball_dy, ey, ndx, ndy] at hc
  rcases hc with hreset | ⟨h1, h2, h3, h4, h5, _⟩
  · left
    exact hreset
  · right
    exact ⟨h1, h2, h3, h4, h5⟩

theorem edge_hit_advance (s : Game) (raw : Nat) (h : ballOk s) :
    edge_hit (advance s raw) ↔ (s.ball_y + s.ball_dy ≤ 0 ∨ s.ball_y + s.ball_dy ≥ 310) := by
  unfold ballOk at h
  obtain ⟨_, hby, _, hdy, _, _⟩ := h
  have hH : ((HEIGHT : Nat) : Int) = 320 := rfl
  have ey : wrapInt (s.ball_y + s.ball_dy) = s.ball_y + s.ball_dy :=
    wrapInt_eq _ (by unfold inInt; omega)
  have ew : wrapInt (s.ball_y + s.ball_dy + 10) = s.ball_y + s.ball_dy + 10 :=
    wrapInt_eq _ (by unfold inInt; omega)
  unfold edge_hit
  rw [advance_ball_y, ey, hH]
  simp only [BALL_SIZE]
  rw [ew]
  omega

theorem tick_ballOk (s : Game) (raw : Nat) (h : ballOk s) : ballOk (tick s raw) := by
  have hc := tick_ball_in_play s raw h
  have he := edge_hit_advance s raw h
  unfold ballOk at h ⊢
  obtain ⟨hbx, hby, hdx, hdy, htop, hbot⟩ := h
  rcases hc with ⟨h1, h2, h3, h4⟩ | ⟨h1, h2, h3, h4, h5⟩
  · rw [h1, h2, h3, h4]
    decide
  · rw [h1, h2]
    by_cases hedge : edge_hit (advance s raw)
    · rw [if_pos hedge]
      have hedge2 := he.mp hedge
      refine ⟨⟨h4, h5⟩, ?_, ?_, ?_, ?_, ?_⟩
      · omega
      · rcases h3 with h3 | h3 <;> rw [h3] <;> omega
      · omega
      · intro; omega
      · intro; omega
    · rw [if_neg hedge]
      have hedge2 : ¬ (s.ball_y + s.ball_dy ≤ 0 ∨ s.ball_y + s.ball_dy ≥ 310) :=
        fun hh => hedge (he.mpr hh)
      refine ⟨⟨h4, h5⟩, ?_, ?_, ?_, ?_, ?_⟩
      · omega
      · rcases h3 with h3 | h3 <;> rw [h3] <;> omega
      · omega
      · intro; omega
      · intro; omega

theorem run_ballOk (samples : List Nat) (s : Game) (h : ballOk s) :
    ballOk (run s samples) := by
  induction samples generalizing s with
  | nil => exact h
  | cons raw rest ih => exact ih (tick s raw) (tick_ballOk s raw h)

theorem init_ballOk : ballOk init := by
  unfold ballOk
  decide

end Pong

/-! ## C20: no sticking at the edges -/

/-- C20. In every run from the initial state, for any joystick samples,
`-3 < ball_y < HEIGHT - BALL_SIZE + 3`, and when the edge test holds in one tick
(so that tick negates `ball_dy`) it does not hold in the tick that follows. -/
theorem no_edge_sticking (samples : List Nat) (raw next : Nat) :
    -3 < (Pong.run Pong.init samples).ball_y ∧
    (Pong.run Pong.init samples).ball_y < (HEIGHT : Int) - Pong.BALL_SIZE + 3 ∧
    (Pong.edge_hit (Pong.advance (Pong.run Pong.init samples) raw) →
      (Pong.bounce_edges (Pong.advance (Pong.run Pong.init samples) raw)).ball_dy =
          -(Pong.run Pong.init samples).ball_dy ∧
      ¬ Pong.edge_hit (Pong.advance (Pong.tick (Pong.run Pong.init samples) raw) next)) := by
  have h := Pong.run_ballOk samples Pong.init Pong.init_ballOk
  have hT := Pong.tick_ballOk (Pong.run Pong.init samples) raw h
  have hc := Pong.tick_ball_in_play (Pong.run Pong.init samples) raw h
  have he := Pong.edge_hit_advance (Pong.run Pong.init samples) raw h
  have he2 := Pong.edge_hit_advance (Pong.tick (Pong.run Pong.init samples) raw) next hT
  have hH : (HEIGHT : Int) - Pong.BALL_SIZE + 3 = 313 := by decide
  have hb := h
  unfold ballOk at hb
  obtain ⟨_, hby, _, hdy, htop, hbot⟩ := hb
  refine ⟨by omega, by rw [hH]; omega, ?_⟩
  intro hedge
  have hedge1 := he.mp hedge
  constructor
  · rw [Pong.bounce_edges_ball_dy_eq, if_pos hedge, Pong.advance_ball_dy,
      Pong.wrapInt_eq _ (by unfold inInt; omega)]
  · intro hnext
    have hnext2 := he2.mp hnext
    rcases hc with ⟨_, h2, _, h4⟩ | ⟨h1, h2, _, _, _⟩
    · rw [h2, h4] at hnext2
      omega
    · rw [h1, h2, if_pos hedge] at hnext2
      omega

/-! ## The six calls of an iteration -/

theorem loop_body_calls (s : Pong.Game) (raw : Nat) :
    (Pong.loop_body s raw).2 =
      [Pong.RectCall.mk 10 s.paddle_y 10 60 0 0 0,
       Pong.RectCall.mk 460 s.paddle2_y 10 60 0 0 0,
       Pong.RectCall.mk s.ball_x s.ball_y 10 10 0 0 0,
       Pong.RectCall.mk 10 (Pong.tick s raw).paddle_y 10 60 255 255 255,
       Pong.RectCall.mk 460 (Pong.tick s raw).paddle2_y 10 60 255 255 255,
       Pong.RectCall.mk (Pong.tick s raw).ball_x (Pong.tick s raw).ball_y 10 10 255 255 255] := by
  have hW : ((WIDTH : Nat) : Int) - 20 = 460 := by decide
  simp only [Pong.loop_body, Pong.draw_calls, Pong.paddle_x, Pong.paddle2_x,
    Pong.PADDLE_WIDTH, Pong.PADDLE_HEIGHT, Pong.BALL_SIZE, hW]

/-! ## C12: what the draw pass paints -/

theorem lcd_set_range_ne_nil (x y : Int) (w h : Nat) (rest : List Event) :
    Pong.lcd_set_range x y w h ++ rest ≠ [] := by
  simp [Pong.lcd_set_range, Pong.lcd_call, Pong.lcd_command]

/-- With the sums `x + w` and `y + h` free of overflow, `drawRect` issues no
hardware call exactly when the rectangle leaves the screen. -/
theorem drawRect_eq_nil_iff (x y w h : Int) (r g b : Nat)
    (hxw : inInt (x + w)) (hyh : inInt (y + h)) :
    Pong.drawRect x y w h r g b = [] ↔ (x < 0 ∨ y < 0 ∨ x + w > 480 ∨ y + h > 320) := by
  have hW : ((WIDTH : Nat) : Int) = 480 := rfl
  have hH : ((HEIGHT : Nat) : Int) = 320 := rfl
  unfold Pong.drawRect
  rw [Pong.wrapInt_eq _ hxw, Pong.wrapInt_eq _ hyh, hW, hH]
  by_cases hc : x < 0 ∨ y < 0 ∨ x + w > 480 ∨ y + h > 320
  · rw [if_pos hc]
    exact ⟨fun _ => hc, fun _ => rfl⟩
  · rw [if_neg hc, List.append_assoc]
    exact ⟨fun hnil => absurd hnil (lcd_set_range_ne_nil _ _ _ _ _), fun hh => absurd hh hc⟩

set_option maxRecDepth 4000 in
set_option maxHeartbeats 4000000 in
theorem via_51_ticks :
    runVia 8 ⟨130, 130, 235, 155, 3, 3⟩ (List.replicate 51 2048)
      [⟨130, 150, 259, 179, 3, 3⟩, ⟨130, 170, 283, 203, 3, 3⟩, ⟨130, 190, 307, 227, 3, 3⟩,
       ⟨130, 220, 331, 251, 3, 3⟩, ⟨130, 240, 355, 275, 3, 3⟩, ⟨130, 260, 379, 299, 3, 3⟩,
       ⟨130, 260, 388, 308, 3, 3⟩] = true := by
  decide

/-- The state 51 ticks into a game with the stick at rest. -/
theorem run_51_ticks :
    Pong.run Pong.init (List.replicate 51 2048) = ⟨130, 260, 388, 308, 3, 3⟩ := by
  have h0 : Pong.init = ⟨130, 130, 235, 155, 3, 3⟩ := by decide
  rw [h0]
  exact runVia_sound 8 _ _ _ via_51_ticks

/-- C12, as stated, fails in play: with the stick at rest, the 52nd tick moves
the ball from `(388, 308)` to `(391, 311)`.  The draw pass hands
`drawRect(391, 311, 10, 10, 255, 255, 255)` to the driver, `311 + 10 > HEIGHT`,
and the call returns without drawing: the ball is not painted in that tick. -/
theorem draw_pass_counterexample :
    Pong.run Pong.init (List.replicate 51 2048) = ⟨130, 260, 388, 308, 3, 3⟩ ∧
    Pong.tick ⟨130, 260, 388, 308, 3, 3⟩ 2048 = ⟨130, 260, 391, 311, 3, -3⟩ ∧
    (Pong.loop_body ⟨130, 260, 388, 308, 3, 3⟩ 2048).2.drop 3 =
      [Pong.RectCall.mk 10 130 10 60 255 255 255,
       Pong.RectCall.mk 460 260 10 60 255 255 255,
       Pong.RectCall.mk 391 311 10 10 255 255 255] ∧
    ¬ RectCall.onScreen (Pong.RectCall.mk 391 311 10 10 255 255 255) ∧
    Pong.drawRect 391 311 10 10 255 255 255 = [] := by
  exact ⟨run_51_ticks, by decide, by decide, by decide, by decide⟩

/-- C12, amended. In every tick reached from the initial state, for any joystick
samples, the draw pass hands the left paddle, the right paddle and the ball to
`drawRect`; both paddle rectangles lie on the screen and are drawn; the ball's
rectangle lies on the screen horizontally and at most 2 pixels past the top or
bottom edge, and it is drawn exactly when `0 ≤ ball_y ≤ HEIGHT - BALL_SIZE`:
in a tick that ends with the ball past an edge its draw call is dropped. -/
theorem draw_pass_paints (samples : List Nat) (raw : Nat) :
    (Pong.loop_body (Pong.run Pong.init samples) raw).2.drop 3 =
      [Pong.RectCall.mk 10 (Pong.tick (Pong.run Pong.init samples) raw).paddle_y 10 60
         255 255 255,
       Pong.RectCall.mk 460 (Pong.tick (Pong.run Pong.init samples) raw).paddle2_y 10 60
         255 255 255,
       Pong.RectCall.mk (Pong.tick (Pong.run Pong.init samples) raw).ball_x
         (Pong.tick (Pong.run Pong.init samples) raw).ball_y 10 10 255 255 255] ∧
    (RectCall.onScreen (Pong.RectCall.mk 10
        (Pong.tick (Pong.run Pong.init samples) raw).paddle_y 10 60 255 255 255) ∧
     Pong.drawRect 10 (Pong.tick (Pong.run Pong.init samples) raw).paddle_y 10 60
        255 255 255 ≠ []) ∧
    (RectCall.onScreen (Pong.RectCall.mk 460
        (Pong.tick (Pong.run Pong.init samples) raw).paddle2_y 10 60 255 255 255) ∧
     Pong.drawRect 460 (Pong.tick (Pong.run Pong.init samples) raw).paddle2_y 10 60
        255 255 255 ≠ []) ∧
    (0 ≤ (Pong.tick (Pong.run Pong.init samples) raw).ball_x ∧
     (Pong.tick (Pong.run Pong.init samples) raw).ball_x + 10 ≤ 480 ∧
     -2 ≤ (Pong.tick (Pong.run Pong.init samples) raw).ball_y ∧
     (Pong.tick (Pong.run Pong.init samples) raw).ball_y + 10 ≤ 320 + 2) ∧
    (RectCall.onScreen (Pong.RectCall.mk (Pong.tick (Pong.run Pong.init samples) raw).ball_x
        (Pong.tick (Pong.run Pong.init samples) raw).ball_y 10 10 255 255 255) ↔
      (0 ≤ (Pong.tick (Pong.run Pong.init samples) raw).ball_y ∧
       (Pong.tick (Pong.run Pong.init samples) raw).ball_y ≤ 310)) ∧
    (Pong.drawRect (Pong.tick (Pong.run Pong.init samples) raw).ball_x
        (Pong.tick (Pong.run Pong.init samples) raw).ball_y 10 10 255 255 255 ≠ [] ↔
      (0 ≤ (Pong.tick (Pong.run Pong.init samples) raw).ball_y ∧
       (Pong.tick (Pong.run Pong.init samples) raw).ball_y ≤ 310)) := by
  have hb := Pong.tick_ballOk _ raw (Pong.run_ballOk samples Pong.init Pong.init_ballOk)
  have hp0 : paddleOk Pong.init.paddle_y ∧ paddleOk Pong.init.paddle2_y := by
    unfold paddleOk
    decide
  have hp := Pong.tick_paddles_ok _ raw (Pong.run_paddles_ok samples Pong.init hp0)
  unfold ballOk at hb
  unfold paddleOk at hp
  obtain ⟨⟨hx0, hx1⟩, ⟨hy0, hy1⟩, _, _, _, _⟩ := hb
  obtain ⟨⟨p0, p1, _⟩, ⟨q0, q1, _⟩⟩ := hp
  have hcalls := (loop_body_calls (Pong.run Pong.init samples) raw)
  have n1 := drawRect_eq_nil_iff 10 (Pong.tick (Pong.run Pong.init samples) raw).paddle_y
    10 60 255 255 255 (by decide) (by unfold inInt; omega)
  have n2 := drawRect_eq_nil_iff 460 (Pong.tick (Pong.run Pong.init samples) raw).paddle2_y
    10 60 255 255 255 (by decide) (by unfold inInt; omega)
  have n3 := drawRect_eq_nil_iff (Pong.tick (Pong.run Pong.init samples) raw).ball_x
    (Pong.tick (Pong.run Pong.init samples) raw).ball_y 10 10 255 255 255
    (by unfold inInt; omega) (by unfold inInt; omega)
  refine ⟨?_, ⟨?_, ?_⟩, ⟨?_, ?_⟩, ⟨hx0, by omega, hy0, by omega⟩, ?_, ?_⟩
  · rw [hcalls]
    rfl
  · unfold RectCall.onScreen
    simp only []
    omega
  · rw [Ne, n1]
    omega
  · unfold RectCall.onScreen
    simp only []
    omega
  · rw [Ne, n2]
    omega
  · unfold RectCall.onScreen
    simp only []
    omega
  · rw [Ne, n3]
    omega

/-- C20 at the 52nd tick of a game with the stick at rest, in which the ball
reaches the bottom edge. -/
theorem no_edge_sticking_witness :
    Pong.edge_hit (Pong.advance (Pong.run Pong.init (List.replicate 51 2048)) 2048) ∧
    (-3 < (Pong.run Pong.init (List.replicate 51 2048)).ball_y ∧
     (Pong.run Pong.init (List.replicate 51 2048)).ball_y < (HEIGHT : Int) - Pong.BALL_SIZE + 3 ∧
     (Pong.edge_hit (Pong.advance (Pong.run Pong.init (List.replicate 51 2048)) 2048) →
       (Pong.bounce_edges (Pong.advance (Pong.run Pong.init (List.replicate 51 2048))
           2048)).ball_dy = -(Pong.run Pong.init (List.replicate 51 2048)).ball_dy ∧
       ¬ Pong.edge_hit (Pong.advance (Pong.tick (Pong.run Pong.init (List.replicate 51 2048))
           2048) 2048))) :=
  ⟨by rw [run_51_ticks]; decide, no_edge_sticking (List.replicate 51 2048) 2048 2048⟩

end PicoProjects
